import Mathlib

/-!
# carzone: a verification development

A shallow embedding of the request validators (`models/car.go`), the token
pipeline (`handler/login/login.go`, `middleware/auth_middleware.go`), the
two transactional stores (`store/car/car.go`, `store/engine/engine.go`), the
car service and handler (`service/car/car.go`, `handler/car/car.go`) and the
metrics middleware (`middleware/metrices_middleware.go`).

Conventions of the embedding

* a Go `error` is `Option GoError`; `none` is the nil error;
* `int` and `int64` are `Int`, with the 64-bit range checked where the code
  can observe it (`strconv.Atoi`);
* a `float64` price is a `Float64`: a finite value (a rational), one of the
  two infinities, or NaN, with the comparisons of IEEE 754;
* `time.Time` is an `Int` (an instant), the zero time being `0`;
* Go strings are Lean strings; the library functions used on them are given
  on the list of characters, or on the list of UTF-8 bytes where the code
  counts or indexes bytes (`uuid.Parse`).
-/

namespace Carzone

/-! ## Errors -/

/-- A Go error value: the sentinels of `database/sql` the code compares with,
or an error carrying a message (`errors.New`, a driver error). -/
inductive GoError where
  | errNoRows
  | errTxDone
  | msg (text : String)
  deriving DecidableEq, Repr

/-- The error produced by `errors.New`. -/
def errorsNew (text : String) : Option GoError := some (GoError.msg text)

/-! ## Identifiers (`github.com/google/uuid`) -/

/-- A UUID, as the 128-bit number its sixteen bytes spell (big-endian). -/
structure UUID where
  val : Nat
  deriving DecidableEq, Repr

/-- The value `uuid.Nil`: all sixteen bytes zero. -/
def UUID.Nil : UUID := ⟨0⟩

instance : Inhabited UUID := ⟨UUID.Nil⟩

/-- The bytes of a character in UTF-8. -/
def charBytes (c : Char) : List Nat :=
  if c.toNat < 128 then [c.toNat]
  else if c.toNat < 2048 then [192 + c.toNat / 64, 128 + c.toNat % 64]
  else if c.toNat < 65536 then
    [224 + c.toNat / 4096, 128 + c.toNat / 64 % 64, 128 + c.toNat % 64]
  else
    [240 + c.toNat / 262144, 128 + c.toNat / 4096 % 64, 128 + c.toNat / 64 % 64,
      128 + c.toNat % 64]

/-- The bytes of a text: what `len(s)` counts and `s[i]` indexes. -/
def utf8Bytes : List Char → List Nat
  | [] => []
  | c :: cs => charBytes c ++ utf8Bytes cs

/-- The table `xvalues` of the uuid package: the value of a byte as a
hexadecimal digit. -/
def xvalue (b : Nat) : Option Nat :=
  if 48 ≤ b ∧ b ≤ 57 then some (b - 48)
  else if 97 ≤ b ∧ b ≤ 102 then some (b - 87)
  else if 65 ≤ b ∧ b ≤ 70 then some (b - 55)
  else none

/-- The function `xtob` of the uuid package: two hexadecimal digits to a byte. -/
def xtob (x1 x2 : Nat) : Option Nat :=
  match xvalue x1, xvalue x2 with
  | some a, some b => some (a * 16 + b)
  | _, _ => none

/-- Reads sixteen bytes at the given offsets of a byte list. -/
def readBytes (s : List Nat) : List Nat → Option (List Nat)
  | [] => some []
  | x :: xs =>
    match xtob (s.getD x 0) (s.getD (x + 1) 0), readBytes s xs with
    | some b, some bs => some (b :: bs)
    | _, _ => none

/-- The UUID spelled by a list of bytes. -/
def UUID.ofBytes (bs : List Nat) : UUID := ⟨bs.foldl (fun acc b => acc * 256 + b) 0⟩

/-- The comparison `strings.EqualFold(s, "urn:uuid:")` on nine bytes: no
letter of `urn:uuid:` folds with a character outside ASCII, so the bytes are
compared with the upper-case ASCII letters lowered. -/
def isUrnLead (s : List Nat) : Bool :=
  s.map (fun b => if 65 ≤ b ∧ b ≤ 90 then b + 32 else b) == utf8Bytes "urn:uuid:".toList

/-- The function `uuid.Parse`, on the bytes of the text: the accepted lengths
are 36, 36+9 (urn form), 36+2 (braced form, the two outer bytes not looked
at) and 32 (bare hexadecimal); any other length is an error. -/
def uuidParse (str : String) : Option UUID :=
  let s := utf8Bytes str.toList
  let dashed (t : List Nat) : Option UUID :=
    if t.getD 8 0 ≠ 45 ∨ t.getD 13 0 ≠ 45 ∨ t.getD 18 0 ≠ 45 ∨ t.getD 23 0 ≠ 45 then none
    else (readBytes t [0, 2, 4, 6, 9, 11, 14, 16, 19, 21, 24, 26, 28, 30, 32, 34]).map UUID.ofBytes
  if s.length = 36 then dashed s
  else if s.length = 36 + 9 then
    if isUrnLead (s.take 9) then dashed (s.drop 9) else none
  else if s.length = 36 + 2 then dashed (s.drop 1)
  else if s.length = 32 then
    (readBytes s [0, 2, 4, 6, 8, 10, 12, 14, 16, 18, 20, 22, 24, 26, 28, 30]).map UUID.ofBytes
  else none

/-! ## The data model (`models`) -/

/-- An instant (`time.Time`). -/
abbrev Time := Int

/-- A `float64`: a finite value, an infinity, or NaN. Negative zero compares
as zero and is not told apart from it. -/
inductive Float64 where
  | finite (q : Rat)
  | posInf
  | negInf
  | nan
  deriving DecidableEq, Repr

instance (n : Nat) : OfNat Float64 n := ⟨Float64.finite (n : Rat)⟩

/-- The comparison `a <= b` of two `float64`: false whenever one is NaN. -/
def Float64.le : Float64 → Float64 → Bool
  | Float64.nan, _ => false
  | _, Float64.nan => false
  | Float64.negInf, _ => true
  | _, Float64.posInf => true
  | Float64.finite a, Float64.finite b => decide (a ≤ b)
  | _, _ => false

/-- The comparison `a < b` of two `float64`: false whenever one is NaN. -/
def Float64.lt : Float64 → Float64 → Bool
  | Float64.nan, _ => false
  | _, Float64.nan => false
  | _, Float64.negInf => false
  | Float64.posInf, _ => false
  | Float64.negInf, _ => true
  | _, Float64.posInf => true
  | Float64.finite a, Float64.finite b => decide (a < b)

/-- Modelled from the spec: the struct `models.Engine`, whose declaring file
is not among the sources; the fields are the four the code reads and scans
(`EngineID`, `Displacement`, `NoOfCylinders`, `CarRange`), the three
quantities being integers. -/
structure Engine where
  EngineID : UUID
  Displacement : Int
  NoOfCylinders : Int
  CarRange : Int
  deriving DecidableEq, Repr

/-- Modelled from the spec: the struct `models.EngineRequest`, whose declaring
file is not among the sources: displacement, cylinder count and range. -/
structure EngineRequest where
  Displacement : Int
  NoOfCylinders : Int
  CarRange : Int
  deriving DecidableEq, Repr

/-- The struct `models.Car`. -/
structure Car where
  ID : UUID
  Name : String
  Year : String
  Brand : String
  FuelType : String
  Engine : Engine
  Price : Float64
  CreatedAt : Time
  UpdatedAt : Time
  deriving DecidableEq, Repr

/-- The struct `models.CarRequest`. -/
structure CarRequest where
  Name : String
  Year : String
  Brand : String
  FuelType : String
  Engine : Engine
  Price : Float64
  deriving DecidableEq, Repr

/-- The zero value of `models.Engine`. -/
def Engine.zero : Engine := ⟨UUID.Nil, 0, 0, 0⟩

/-- The zero value of `models.Car` (`var car models.Car`). -/
def Car.zero : Car := ⟨UUID.Nil, "", "", "", "", Engine.zero, 0, 0, 0⟩

/-! ## `strconv.Atoi` -/

/-- The value of a run of decimal digits, most significant first. -/
def digitsValue (ds : List Char) : Nat :=
  ds.foldl (fun acc c => acc * 10 + (c.toNat - 48)) 0

/-- The leading sign of a numeral, if any: whether it is a minus, and the
characters after it. -/
def splitSign : List Char → Bool × List Char
  | '-' :: rest => (true, rest)
  | '+' :: rest => (false, rest)
  | cs => (false, cs)

/-- The integer a text denotes in decimal: an optional sign, then one or more
decimal digits; `none` when the text is not of that form. -/
def parseDecimal (s : String) : Option Int :=
  let signed := splitSign s.toList
  let ds := signed.2
  if ds.isEmpty then none
  else if ds.all Char.isDigit then
    some (if signed.1 then -(digitsValue ds : Int) else (digitsValue ds : Int))
  else none

/-- The function `strconv.Atoi` on a 64-bit platform: the integer the text
denotes, when it is within the range of `int`; `none` is a non-nil error
(syntax or range). -/
def Atoi (s : String) : Option Int :=
  match parseDecimal s with
  | none => none
  | some v => if -(2 : Int) ^ 63 ≤ v ∧ v < (2 : Int) ^ 63 then some v else none

/-- The function `strconv.Itoa` (also `fmt.Sprintf("%d", n)`): the decimal
rendering of an integer. -/
def Itoa (n : Int) : String := toString n

/-! ## The validators of `models/car.go` -/

/-- The function `validateName`. -/
def validateName (name : String) : Option GoError :=
  if name = "" then errorsNew "name is required" else none

/-- The function `validateYear`; `currentYear` is `time.Now().Year()`. -/
def validateYear (currentYear : Int) (year : String) : Option GoError :=
  if year = "" then errorsNew "year is required"
  else
    match Atoi year with
    | none => errorsNew "year must be a valid number"
    | some yearInt =>
      if yearInt < 1886 ∨ yearInt > currentYear then
        errorsNew "year must be between 1886 and current year"
      else none

/-- The list `validateFuelTypes` of `ValidateFuelType`. -/
def validateFuelTypes : List String := ["Petrol", "Diesel", "Electric", "Hybrid"]

/-- The loop of `ValidateFuelType` over the valid types. -/
def fuelLoop (fuelType : String) : List String → Option GoError
  | [] => errorsNew "FuelTpe must be one of the above"
  | validType :: rest => if fuelType = validType then none else fuelLoop fuelType rest

/-- The function `ValidateFuelType`. -/
def ValidateFuelType (fuelType : String) : Option GoError :=
  fuelLoop fuelType validateFuelTypes

/-- The function `validateEngine`. -/
def validateEngine (engine : Engine) : Option GoError :=
  if engine.EngineID = UUID.Nil then errorsNew "EngineID is required"
  else if engine.Displacement ≤ 0 then errorsNew "displacement must be greater than zero"
  else if engine.NoOfCylinders ≤ 0 then errorsNew "noOfCylinders must be greater than zero"
  else if engine.CarRange ≤ 0 then errorsNew "carRange must be greater than zero"
  else none

/-- The function `validatePrice`. -/
def validatePrice (price : Float64) : Option GoError :=
  if Float64.le price 0 = true then errorsNew "price must be greater than zero" else none

/-- The function `ValidateRequest`: the five checks in order, the first error
returned. -/
def ValidateRequest (currentYear : Int) (carReq : CarRequest) : Option GoError :=
  match validateName carReq.Name with
  | some err => some err
  | none =>
  match validateYear currentYear carReq.Year with
  | some err => some err
  | none =>
  match ValidateFuelType carReq.FuelType with
  | some err => some err
  | none =>
  match validateEngine carReq.Engine with
  | some err => some err
  | none =>
  match validatePrice carReq.Price with
  | some err => some err
  | none => none

/-! ## Tokens (`github.com/golang-jwt/jwt/v4`) -/

/-- A value of a JSON claims object, as far as this code writes or reads
one: a string or an integer number. -/
inductive JVal where
  | str (s : String)
  | num (n : Int)
  deriving DecidableEq, Repr

/-- A JSON claims object: its members in order. -/
abbrev Payload := List (String × JVal)

/-- The struct `jwt.StandardClaims` (members `aud`, `exp`, `jti`, `iat`,
`iss`, `nbf`, `sub`). -/
structure StandardClaims where
  Audience : String
  ExpiresAt : Int
  Id : String
  IssuedAt : Int
  Issuer : String
  NotBefore : Int
  Subject : String
  deriving DecidableEq, Repr

/-- The struct `Claims` of the middleware: `UserName` under the JSON name
`username`, and the embedded standard claims. -/
structure Claims where
  UserName : String
  std : StandardClaims
  deriving DecidableEq, Repr

/-- The value `&Claims{}`. -/
def Claims.zero : Claims := ⟨"", ⟨"", 0, "", 0, "", 0, ""⟩⟩

/-- A string member, left out when empty (`omitempty`). -/
def strMember (name value : String) : Payload :=
  if value = "" then [] else [(name, JVal.str value)]

/-- An integer member, left out when zero (`omitempty`). -/
def numMember (name : String) (value : Int) : Payload :=
  if value = 0 then [] else [(name, JVal.num value)]

/-- The JSON object `encoding/json` writes for a `jwt.StandardClaims`. -/
def StandardClaims.toJSON (c : StandardClaims) : Payload :=
  strMember "aud" c.Audience ++ numMember "exp" c.ExpiresAt ++ strMember "jti" c.Id ++
  numMember "iat" c.IssuedAt ++ strMember "iss" c.Issuer ++ numMember "nbf" c.NotBefore ++
  strMember "sub" c.Subject

/-- One member of a JSON object stored into a `Claims`: the member goes to
the field whose JSON name it carries, letter case aside; a member of the
wrong JSON type is a decoding error (`none`); an unknown member is skipped. -/
def Claims.setMember (c : Claims) (kv : String × JVal) : Option Claims :=
  let name := String.mk (kv.1.toList.map Char.toLower)
  let setStr (f : String → Claims) : Option Claims :=
    match kv.2 with
    | JVal.str s => some (f s)
    | JVal.num _ => none
  let setNum (f : Int → Claims) : Option Claims :=
    match kv.2 with
    | JVal.num n => some (f n)
    | JVal.str _ => none
  if name = "username" then setStr (fun s => { c with UserName := s })
  else if name = "aud" then setStr (fun s => { c with std := { c.std with Audience := s } })
  else if name = "exp" then setNum (fun n => { c with std := { c.std with ExpiresAt := n } })
  else if name = "jti" then setStr (fun s => { c with std := { c.std with Id := s } })
  else if name = "iat" then setNum (fun n => { c with std := { c.std with IssuedAt := n } })
  else if name = "iss" then setStr (fun s => { c with std := { c.std with Issuer := s } })
  else if name = "nbf" then setNum (fun n => { c with std := { c.std with NotBefore := n } })
  else if name = "sub" then setStr (fun s => { c with std := { c.std with Subject := s } })
  else some c

/-- The decoding of a JSON claims object into a `Claims` (`json.Decode`). -/
def Claims.decode : Payload → Claims → Option Claims
  | [], c => some c
  | kv :: rest, c =>
    match Claims.setMember c kv with
    | none => none
    | some c1 => Claims.decode rest c1

/-- The method `StandardClaims.Valid`: a claim that is set must hold at the
instant `now`: not expired (`now` before `exp`), not used before issued, not
used before `nbf`; a claim left at zero is not checked. -/
def StandardClaims.Valid (c : StandardClaims) (now : Int) : Bool :=
  (c.ExpiresAt = 0 ∨ now < c.ExpiresAt) ∧
  (c.IssuedAt = 0 ∨ c.IssuedAt ≤ now) ∧
  (c.NotBefore = 0 ∨ c.NotBefore ≤ now)

/-- The parts of the jwt library this embedding leaves abstract: the compact
serialisation (base64url of JSON, three segments) and the HMAC.

* `signedString alg payload key` is `Token.SignedString`;
* `segments tokenString` is the claims object of a well-formed token string
  whose header names a registered signing method, `none` when malformed;
* `signatureOk tokenString key` is `Method.Verify` returning nil on the
  segments of the token string. -/
structure JwtLib where
  signedString : String → Payload → String → String
  segments : String → Option Payload
  signatureOk : String → String → Bool

/-- The result of `ParseWithClaims`: the claims filled in, the flag
`token.Valid`, and the error. -/
structure ParseResult where
  claims : Claims
  valid : Bool
  err : Option GoError
  deriving DecidableEq, Repr

/-- The function `jwt.ParseWithClaims` with a key function that returns `key`
for every token. -/
def ParseWithClaims (lib : JwtLib) (now : Int) (tokenString : String) (claims : Claims)
    (key : String) : ParseResult :=
  match lib.segments tokenString with
  | none => ⟨claims, false, errorsNew "token is malformed"⟩
  | some payload =>
    match Claims.decode payload claims with
    | none => ⟨claims, false, errorsNew "token is malformed"⟩
    | some filled =>
      if filled.std.Valid now = true ∧ lib.signatureOk tokenString key = true then
        ⟨filled, true, none⟩
      else ⟨filled, false, errorsNew "token is invalid"⟩

/-- The variable `jwtKey` of the middleware. -/
def jwtKey : String := "some_value"

/-- The claims `GenerateToken` builds for a user name; `now` and `issued` are
the two readings of `time.Now()` as Unix seconds, a day being 86400 seconds. -/
def issuedClaims (now issued : Int) (userName : String) : StandardClaims :=
  { Audience := "", ExpiresAt := now + 86400, Id := "", IssuedAt := issued,
    Issuer := "", NotBefore := 0, Subject := userName }

/-- The function `GenerateToken`. Signing with a byte-slice key never fails,
so the error is nil. -/
def GenerateToken (lib : JwtLib) (now issued : Int) (userName : String) :
    String × Option GoError :=
  (lib.signedString "HS256" (issuedClaims now issued userName).toJSON "some_value", none)

/-! ## The authorisation middleware -/

/-- An HTTP request, as far as the middleware reads it: the header fields
under their canonical names, and the values of the request context. -/
structure Request where
  Header : List (String × String)
  Context : List (String × String)
  deriving DecidableEq, Repr

/-- The method `Header.Get`: the first value under the name, or the empty
string. -/
def headerGet (h : List (String × String)) (name : String) : String :=
  match h.find? (fun kv => kv.1 == name) with
  | some kv => kv.2
  | none => ""

/-- The function `strings.TrimPrefix`. -/
def TrimPrefix (s lead : String) : String :=
  if lead.toList.isPrefixOf s.toList then String.mk (s.toList.drop lead.toList.length) else s

/-- What the middleware did with a request: answered it itself
(`http.Error`), or called the downstream handler with a request. -/
inductive Served where
  | answered (status : Nat) (body : String)
  | next (r : Request)
  deriving DecidableEq, Repr

/-- The handler `AuthMiddleware(next)` on one request. -/
def AuthMiddleware (lib : JwtLib) (now : Int) (r : Request) : Served :=
  let authHeader := headerGet r.Header "Authorizatiom"
  if authHeader = "" then Served.answered 401 "Authorization header required"
  else
    let tokenString := TrimPrefix authHeader "Bearer"
    let res := ParseWithClaims lib now tokenString Claims.zero jwtKey
    if res.err ≠ none ∨ res.valid = false then Served.answered 401 "Invalid token"
    else Served.next { r with Context := ("username", res.claims.UserName) :: r.Context }

/-! ## The database behind `*sql.DB`

The tables are lists of rows. Whether the database accepts the text of a
statement, and whether a call fails or panics, is the answer of the driver,
which every operation takes as its argument `Driver`; when the driver
reports success, the statement has the effect its text and arguments
describe on the rows the transaction sees. -/

/-- A row of the car table. -/
structure CarRow where
  id : UUID
  name : String
  year : String
  brand : String
  fuel_type : String
  engine_id : UUID
  price : Float64
  created_at : Time
  updated_at : Time
  deriving DecidableEq, Repr

/-- The rows of the two tables; a row of the engine table is an `Engine`. -/
structure DB where
  engine : List Engine
  cars : List CarRow
  deriving DecidableEq, Repr

/-- A call recorded on the connection: a successful `BeginTx`, a call of
`tx.Commit`, a call of `tx.Rollback`. -/
inductive TxCall where
  | begin
  | commit
  | rollback
  deriving DecidableEq, Repr

/-- The handle `*sql.DB`: the committed rows, and the transaction calls made
so far, oldest first. -/
structure Store where
  db : DB
  calls : List TxCall
  deriving DecidableEq, Repr

/-- The handle `*sql.Tx`: the rows as the transaction sees them, and whether
it has been finished. -/
structure Tx where
  work : DB
  done : Bool
  deriving DecidableEq, Repr

/-- What the driver does with a statement run inside a transaction. -/
inductive Stmt where
  | ok
  | fails (text : String)
  | panics
  deriving DecidableEq, Repr

/-- The answers of the driver and of the clock during one store operation. -/
structure Driver where
  /-- the error of a query run on the connection, outside a transaction (the
  engine lookup of `CreateCar`, the read of `GetCarById`), if it fails -/
  lookup : Option String
  /-- the error of `BeginTx`, if it fails -/
  beginTx : Option String
  /-- the `SELECT` run inside the transaction -/
  query : Stmt
  /-- the `INSERT`, `UPDATE` or `DELETE` run inside the transaction -/
  exec : Stmt
  /-- the answer of `result.LastInsertId()` -/
  lastInsertId : Except String Int
  /-- the error of `result.RowsAffected()`, if it fails -/
  rowsAffected : Option String
  /-- another session deletes the row read by the `SELECT` of a delete
  operation, and commits, before the `DELETE` runs -/
  raced : Bool
  /-- the error of the first `tx.Commit`, if it fails -/
  commit : Option String
  /-- the value of `uuid.New()` that is bound to the statement -/
  newID : UUID
  /-- the value of `time.Now()` -/
  now : Time

/-- How a Go function call ends: it returns its pair of results, or it
panics. -/
inductive Outcome (α : Type) where
  | returned (value : α) (err : Option GoError)
  | panicked
  deriving DecidableEq, Repr

/-- The call `db.BeginTx`. -/
def BeginTx (fault : Option String) (st : Store) : Except GoError (Tx × Store) :=
  match fault with
  | some text => Except.error (GoError.msg text)
  | none => Except.ok (⟨st.db, false⟩, { st with calls := st.calls ++ [TxCall.begin] })

/-- The call `tx.Commit`: on a finished transaction it returns `ErrTxDone`;
otherwise the transaction is finished and, unless the commit fails, its rows
become the committed rows. -/
def Tx.Commit (tx : Tx) (fault : Option String) (st : Store) : Option GoError × Tx × Store :=
  let st1 := { st with calls := st.calls ++ [TxCall.commit] }
  if tx.done then (some GoError.errTxDone, tx, st1)
  else
    match fault with
    | some text => (some (GoError.msg text), { tx with done := true }, st1)
    | none => (none, { tx with done := true }, { st1 with db := tx.work })

/-- The call `tx.Rollback`: on a finished transaction it returns `ErrTxDone`;
otherwise the transaction is finished and its changes are dropped. -/
def Tx.Rollback (tx : Tx) (st : Store) : Option GoError × Tx × Store :=
  let st1 := { st with calls := st.calls ++ [TxCall.rollback] }
  if tx.done then (some GoError.errTxDone, tx, st1)
  else (none, { tx with done := true }, st1)

/-- The deferred closure of every store operation, run on return and on
panic with the current value of the variable `err`: roll back when it is
non-nil, commit otherwise. The results of the enclosing function are unnamed,
so what the closure assigns to `err` does not reach the caller. -/
def deferred (d : Driver) (err : Option GoError) (tx : Tx) (st : Store) : Store :=
  match err with
  | some _ => (tx.Rollback st).2.2
  | none => (tx.Commit d.commit st).2.2

/-- Whether the text of an identifier, bound to a statement, denotes the
identifier of a row; a text that spells no UUID denotes none. -/
def idIs (id : String) (rowID : UUID) : Bool := uuidParse id == some rowID

/-- The rows after another session has deleted the cars with the identifier. -/
def DB.withoutCar (db : DB) (id : String) : DB :=
  { db with cars := db.cars.filter (fun r => !idIs id r.id) }

/-- The rows after the engines with the identifier are deleted. -/
def DB.withoutEngine (db : DB) (id : String) : DB :=
  { db with engine := db.engine.filter (fun e => !idIs id e.EngineID) }

/-! ## The car store (`store/car/car.go`) -/

namespace CarStore

/-- The row that `CreateCar` binds to its `INSERT`. -/
def newRow (d : Driver) (carReq : CarRequest) : CarRow :=
  { id := d.newID, name := carReq.Name, year := carReq.Year, brand := carReq.Brand,
    fuel_type := carReq.FuelType, engine_id := carReq.Engine.EngineID, price := carReq.Price,
    created_at := d.now, updated_at := d.now }

/-- The method `Store.CreateCar`. The engine lookup runs on the connection,
before the transaction. The variable `err` is one variable throughout, so
the deferred closure sees the error of the last call made. -/
def CreateCar (d : Driver) (st : Store) (carReq : CarRequest) : Outcome Car × Store :=
  let car := Car.zero
  match d.lookup with
  | some text => (Outcome.returned car (some (GoError.msg text)), st)
  | none =>
  match st.db.engine.find? (fun e => e.EngineID == carReq.Engine.EngineID) with
  | none => (Outcome.returned car (errorsNew "engine_id does not exist in the engine table"), st)
  | some _ =>
  match BeginTx d.beginTx st with
  | Except.error e => (Outcome.returned car (some e), st)
  | Except.ok (tx, st1) =>
  match d.exec with
  | Stmt.panics => (Outcome.panicked, deferred d none tx st1)
  | Stmt.fails text =>
    let err := some (GoError.msg text)
    let r := tx.Rollback st1
    (Outcome.returned car err, deferred d err r.2.1 r.2.2)
  | Stmt.ok =>
    let tx1 : Tx := { tx with work := { tx.work with cars := tx.work.cars ++ [newRow d carReq] } }
    match d.lastInsertId with
    | Except.error text =>
      let err := some (GoError.msg text)
      let r := tx1.Rollback st1
      (Outcome.returned car err, deferred d err r.2.1 r.2.2)
    | Except.ok carID =>
      let car1 : Car :=
        { car with Name := carReq.Name, Year := carReq.Year, Brand := carReq.Brand,
                   FuelType := carReq.FuelType, Engine := carReq.Engine, Price := carReq.Price,
                   CreatedAt := d.now, UpdatedAt := d.now }
      match uuidParse (Itoa carID) with
      | none => (Outcome.panicked, deferred d none tx1 st1)
      | some id => (Outcome.returned { car1 with ID := id } none, deferred d none tx1 st1)

/-- The method `Store.UpdateCar`. -/
def UpdateCar (d : Driver) (st : Store) (id : UUID) (carReq : CarRequest) :
    Outcome Car × Store :=
  let updatedCar := Car.zero
  match BeginTx d.beginTx st with
  | Except.error e => (Outcome.returned updatedCar (some e), st)
  | Except.ok (tx, st1) =>
  match d.exec with
  | Stmt.panics => (Outcome.panicked, deferred d none tx st1)
  | Stmt.fails text =>
    let err := some (GoError.msg text)
    (Outcome.returned updatedCar err, deferred d err tx st1)
  | Stmt.ok =>
    let rows := tx.work.cars.map (fun r =>
      if r.id = id then
        { r with name := carReq.Name, year := carReq.Year, brand := carReq.Brand,
                 fuel_type := carReq.FuelType, price := carReq.Price, updated_at := d.now }
      else r)
    let tx1 : Tx := { tx with work := { tx.work with cars := rows } }
    let updatedCar1 : Car :=
      { updatedCar with ID := id, Name := carReq.Name, Year := carReq.Year,
                        Brand := carReq.Brand, FuelType := carReq.FuelType,
                        Price := carReq.Price, UpdatedAt := d.now }
    (Outcome.returned updatedCar1 none, deferred d none tx1 st1)

/-- The method `Store.DeleteCar`. -/
def DeleteCar (d : Driver) (st : Store) (id : String) : Outcome Car × Store :=
  let deletedCar := Car.zero
  match BeginTx d.beginTx st with
  | Except.error e => (Outcome.returned deletedCar (some e), st)
  | Except.ok (tx, st1) =>
  match d.query with
  | Stmt.panics => (Outcome.panicked, deferred d none tx st1)
  | Stmt.fails text =>
    let err := some (GoError.msg text)
    (Outcome.returned deletedCar err, deferred d err tx st1)
  | Stmt.ok =>
  match tx.work.cars.find? (fun r => idIs id r.id) with
  | none =>
    (Outcome.returned deletedCar (errorsNew "car not found"),
      deferred d (some GoError.errNoRows) tx st1)
  | some row =>
  let deletedCar1 : Car :=
    { deletedCar with ID := row.id, Name := row.name, Year := row.year, Brand := row.brand,
                      FuelType := row.fuel_type, Price := row.price,
                      CreatedAt := row.created_at, UpdatedAt := row.updated_at }
  let tx1 : Tx := if d.raced then { tx with work := tx.work.withoutCar id } else tx
  let st2 : Store := if d.raced then { st1 with db := st1.db.withoutCar id } else st1
  match d.exec with
  | Stmt.panics => (Outcome.panicked, deferred d none tx1 st2)
  | Stmt.fails text =>
    let err := some (GoError.msg text)
    (Outcome.returned deletedCar1 err, deferred d err tx1 st2)
  | Stmt.ok =>
  let rowsAffected := (tx1.work.cars.filter (fun r => idIs id r.id)).length
  let tx2 : Tx := { tx1 with work := tx1.work.withoutCar id }
  match d.rowsAffected with
  | some text =>
    let err := some (GoError.msg text)
    (Outcome.returned deletedCar1 err, deferred d err tx2 st2)
  | none =>
  if rowsAffected = 0 then
    (Outcome.returned Car.zero (errorsNew "no rows were deleted"), deferred d none tx2 st2)
  else (Outcome.returned deletedCar1 none, deferred d none tx2 st2)

end CarStore

/-! ## The engine store (`store/engine/engine.go`) -/

namespace EngineStore

/-- The method `EngineStore.GetEngineById`. After a successful read the
function commits itself; the `err` of that `if` statement is a new variable
of its own, so the deferred closure still sees a nil `err` afterwards. -/
def GetEngineById (d : Driver) (st : Store) (id : String) : Outcome Engine × Store :=
  match BeginTx d.beginTx st with
  | Except.error e => (Outcome.returned Engine.zero (some e), st)
  | Except.ok (tx, st1) =>
  match d.query with
  | Stmt.panics => (Outcome.panicked, deferred d none tx st1)
  | Stmt.fails text =>
    let err := some (GoError.msg text)
    (Outcome.returned Engine.zero err, deferred d err tx st1)
  | Stmt.ok =>
  match tx.work.engine.find? (fun e => idIs id e.EngineID) with
  | none =>
    (Outcome.returned Engine.zero (errorsNew "engine not found"),
      deferred d (some GoError.errNoRows) tx st1)
  | some engine =>
    let r := tx.Commit d.commit st1
    match r.1 with
    | some e => (Outcome.returned Engine.zero (some e), deferred d none r.2.1 r.2.2)
    | none => (Outcome.returned engine none, deferred d none r.2.1 r.2.2)

/-- The method `EngineStore.CreateEngine`. -/
def CreateEngine (d : Driver) (st : Store) (engineReq : EngineRequest) :
    Outcome Engine × Store :=
  let engine := Engine.zero
  match BeginTx d.beginTx st with
  | Except.error e => (Outcome.returned engine (some e), st)
  | Except.ok (tx, st1) =>
  let engineId := d.newID
  match d.exec with
  | Stmt.panics => (Outcome.panicked, deferred d none tx st1)
  | Stmt.fails text =>
    let err := some (GoError.msg text)
    (Outcome.returned engine err, deferred d err tx st1)
  | Stmt.ok =>
    let row : Engine :=
      ⟨engineId, engineReq.Displacement, engineReq.NoOfCylinders, engineReq.CarRange⟩
    let tx1 : Tx := { tx with work := { tx.work with engine := tx.work.engine ++ [row] } }
    let engine1 : Engine :=
      { engine with Displacement := engineReq.Displacement,
                    NoOfCylinders := engineReq.NoOfCylinders,
                    CarRange := engineReq.CarRange }
    (Outcome.returned engine1 none, deferred d none tx1 st1)

/-- The method `EngineStore.EngineUpdate`. -/
def EngineUpdate (d : Driver) (st : Store) (id : UUID) (engineReq : EngineRequest) :
    Outcome Engine × Store :=
  let updatedEngine := Engine.zero
  match BeginTx d.beginTx st with
  | Except.error e => (Outcome.returned updatedEngine (some e), st)
  | Except.ok (tx, st1) =>
  match d.exec with
  | Stmt.panics => (Outcome.panicked, deferred d none tx st1)
  | Stmt.fails text =>
    let err := some (GoError.msg text)
    (Outcome.returned updatedEngine err, deferred d err tx st1)
  | Stmt.ok =>
    let rows := tx.work.engine.map (fun e =>
      if e.EngineID = id then
        { e with Displacement := engineReq.Displacement,
                 NoOfCylinders := engineReq.NoOfCylinders,
                 CarRange := engineReq.CarRange }
      else e)
    let tx1 : Tx := { tx with work := { tx.work with engine := rows } }
    let updatedEngine1 : Engine :=
      ⟨id, engineReq.Displacement, engineReq.NoOfCylinders, engineReq.CarRange⟩
    (Outcome.returned updatedEngine1 none, deferred d none tx1 st1)

/-- The method `EngineStore.EngineDelete`. -/
def EngineDelete (d : Driver) (st : Store) (id : String) : Outcome Engine × Store :=
  let deletedEngine := Engine.zero
  match BeginTx d.beginTx st with
  | Except.error e => (Outcome.returned deletedEngine (some e), st)
  | Except.ok (tx, st1) =>
  match d.query with
  | Stmt.panics => (Outcome.panicked, deferred d none tx st1)
  | Stmt.fails text =>
    let err := some (GoError.msg text)
    (Outcome.returned deletedEngine err, deferred d err tx st1)
  | Stmt.ok =>
  match tx.work.engine.find? (fun e => idIs id e.EngineID) with
  | none =>
    (Outcome.returned deletedEngine (errorsNew "engine not found"),
      deferred d (some GoError.errNoRows) tx st1)
  | some row =>
  let tx1 : Tx := if d.raced then { tx with work := tx.work.withoutEngine id } else tx
  let st2 : Store := if d.raced then { st1 with db := st1.db.withoutEngine id } else st1
  match d.exec with
  | Stmt.panics => (Outcome.panicked, deferred d none tx1 st2)
  | Stmt.fails text =>
    let err := some (GoError.msg text)
    (Outcome.returned row err, deferred d err tx1 st2)
  | Stmt.ok =>
    let tx2 : Tx := { tx1 with work := tx1.work.withoutEngine id }
    (Outcome.returned row none, deferred d none tx2 st2)

end EngineStore

/-! ## Reading the record of transaction calls -/

/-- The number of `Commit` calls in a record. -/
def commits (calls : List TxCall) : Nat := calls.count TxCall.commit

/-- The number of `Rollback` calls in a record. -/
def rollbacks (calls : List TxCall) : Nat := calls.count TxCall.rollback

/-- The number of transactions opened in a record. -/
def begins (calls : List TxCall) : Nat := calls.count TxCall.begin

/-- A driver that answers every call with success: no concurrent session,
`LastInsertId` answering `n`. -/
def Driver.quiet (newID : UUID) (now : Time) (n : Int) : Driver :=
  { lookup := none, beginTx := none, query := Stmt.ok, exec := Stmt.ok,
    lastInsertId := Except.ok n, rowsAffected := none, raced := false, commit := none,
    newID := newID, now := now }

/-! ## Reading a car (`store/car/car.go`) -/

namespace CarStore

/-- The method `Store.GetCarById`: one query on the connection, outside any
transaction (its failure in the driver is the answer `lookup`), joining the
car with its engine. No row is `sql.ErrNoRows`, answered with the car as it
stands and a nil error. A car whose engine row is missing comes back from the
left join with null engine columns, and `Scan` stops with an error at the
first integer among them, the columns before it already stored. -/
def GetCarById (d : Driver) (st : Store) (id : String) : Outcome Car × Store :=
  let car := Car.zero
  match d.lookup with
  | some text => (Outcome.returned car (some (GoError.msg text)), st)
  | none =>
  match st.db.cars.find? (fun r => idIs id r.id) with
  | none => (Outcome.returned car none, st)
  | some row =>
    let car1 : Car :=
      { car with ID := row.id, Name := row.name, Year := row.year, Brand := row.brand,
                 FuelType := row.fuel_type }
    match st.db.engine.find? (fun e => e.EngineID == row.engine_id) with
    | none =>
      (Outcome.returned car1 (errorsNew "converting NULL to int64 is unsupported"), st)
    | some e =>
      (Outcome.returned
        { car1 with Engine := e, Price := row.price, CreatedAt := row.created_at,
                    UpdatedAt := row.updated_at } none, st)

end CarStore

/-! ## The car service (`store/interface.go`, `service/car/car.go`) -/

/-- The interface `store.CarStoreInterface`, over the state `σ` of the
implementation: each method takes the state and returns it with its outcome. -/
structure CarStoreInterface (σ : Type) where
  GetCarById : σ → String → Outcome Car × σ
  GetCarByBrand : σ → String → Bool → Outcome (List Car) × σ
  CreateCar : σ → CarRequest → Outcome Car × σ
  UpdateCar : σ → UUID → CarRequest → Outcome Car × σ
  DeleteCar : σ → String → Outcome Car × σ

/-- The interface `service.CarServiceInterface`; a `*models.Car` is an
`Option Car`, `none` being the nil pointer. -/
structure CarServiceInterface (σ : Type) where
  GetCarById : σ → String → Outcome (Option Car) × σ
  GetCarByBrand : σ → String → Bool → Outcome (List Car) × σ
  CreateCar : σ → CarRequest → Outcome (Option Car) × σ
  UpdateCar : σ → UUID → CarRequest → Outcome (Option Car) × σ
  DeleteCar : σ → String → Outcome (Option Car) × σ

namespace CarService

/-- The tail of every method of the service that returns a car: on an error
of the store `return nil, err`, otherwise the address of the car and nil. -/
def pass {σ : Type} (r : Outcome Car × σ) : Outcome (Option Car) × σ :=
  match r.1 with
  | Outcome.returned _ (some err) => (Outcome.returned none (some err), r.2)
  | Outcome.returned car none => (Outcome.returned (some car) none, r.2)
  | Outcome.panicked => (Outcome.panicked, r.2)

/-- The method `CarService.GetCarById`. -/
def GetCarById {σ : Type} (store : CarStoreInterface σ) (s : σ) (id : String) :
    Outcome (Option Car) × σ :=
  pass (store.GetCarById s id)

/-- The method `CarService.GetCarByBrand`. -/
def GetCarByBrand {σ : Type} (store : CarStoreInterface σ) (s : σ) (brand : String)
    (isEngine : Bool) : Outcome (List Car) × σ :=
  match store.GetCarByBrand s brand isEngine with
  | (Outcome.returned _ (some err), s1) => (Outcome.returned [] (some err), s1)
  | (Outcome.returned cars none, s1) => (Outcome.returned cars none, s1)
  | (Outcome.panicked, s1) => (Outcome.panicked, s1)

/-- The method `CarService.CreateCar`; `currentYear` is the year the clock
shows to `ValidateRequest`. -/
def CreateCar {σ : Type} (store : CarStoreInterface σ) (currentYear : Int) (s : σ)
    (car : CarRequest) : Outcome (Option Car) × σ :=
  match ValidateRequest currentYear car with
  | some err => (Outcome.returned none (some err), s)
  | none => pass (store.CreateCar s car)

/-- The method `CarService.UpdateCar`. -/
def UpdateCar {σ : Type} (store : CarStoreInterface σ) (currentYear : Int) (s : σ)
    (id : UUID) (carReq : CarRequest) : Outcome (Option Car) × σ :=
  match ValidateRequest currentYear carReq with
  | some err => (Outcome.returned none (some err), s)
  | none => pass (store.UpdateCar s id carReq)

/-- The method `CarService.DeleteCar`. -/
def DeleteCar {σ : Type} (store : CarStoreInterface σ) (s : σ) (id : String) :
    Outcome (Option Car) × σ :=
  pass (store.DeleteCar s id)

end CarService

/-- The function `NewCarService`: the service over a store. -/
def NewCarService {σ : Type} (store : CarStoreInterface σ) (currentYear : Int) :
    CarServiceInterface σ :=
  { GetCarById := CarService.GetCarById store,
    GetCarByBrand := CarService.GetCarByBrand store,
    CreateCar := CarService.CreateCar store currentYear,
    UpdateCar := CarService.UpdateCar store currentYear,
    DeleteCar := CarService.DeleteCar store }

/-! ## The car handler (`handler/car/car.go`) -/

/-- The method `Error` of an error value: its message. -/
def GoError.Error : GoError → String
  | GoError.errNoRows => "sql: no rows in result set"
  | GoError.errTxDone => "sql: transaction has already been committed or rolled back"
  | GoError.msg text => text

/-- What a handler did with the response writer: called
`http.Error(w, text, code)`, or wrote the status `code` (200 when it writes
none) and the JSON encoding of a car, or panicked. -/
inductive Reply where
  | error (text : String) (code : Nat)
  | encoded (code : Nat) (car : Option Car)
  | panicked
  deriving DecidableEq, Repr

/-- The status code of a reply, if one was written. -/
def Reply.status : Reply → Option Nat
  | Reply.error _ code => some code
  | Reply.encoded code _ => some code
  | Reply.panicked => none

namespace CarHandler

/-- The method `CarHandler.CreateCar`; `decoded` is what the JSON decoder
made of the body: the request, or its error message. -/
def CreateCar {σ : Type} (service : CarServiceInterface σ) (s : σ)
    (decoded : Except String CarRequest) : Reply × σ :=
  match decoded with
  | Except.error text => (Reply.error text 400, s)
  | Except.ok carReq =>
    match service.CreateCar s carReq with
    | (Outcome.returned _ (some err), s1) => (Reply.error err.Error 500, s1)
    | (Outcome.returned createdCar none, s1) => (Reply.encoded 201 createdCar, s1)
    | (Outcome.panicked, s1) => (Reply.panicked, s1)

/-- The method `CarHandler.UpdateCar`; `id` is the path variable. -/
def UpdateCar {σ : Type} (service : CarServiceInterface σ) (s : σ) (id : String)
    (decoded : Except String CarRequest) : Reply × σ :=
  match decoded with
  | Except.error text => (Reply.error text 400, s)
  | Except.ok carReq =>
    match uuidParse id with
    | none => (Reply.error "Invalid ID format" 400, s)
    | some carID =>
      match service.UpdateCar s carID carReq with
      | (Outcome.returned _ (some err), s1) => (Reply.error err.Error 500, s1)
      | (Outcome.returned updatedCar none, s1) => (Reply.encoded 200 updatedCar, s1)
      | (Outcome.panicked, s1) => (Reply.panicked, s1)

end CarHandler

/-! ## The metrics middleware (`middleware/metrices_middleware.go`) -/

/-- A `prometheus.CounterVec`: the children by their label values, each with
its count; `none` where no child exists yet. -/
abbrev CounterVec := List String → Option Nat

/-- The count a vector shows for label values: zero without a child. -/
def CounterVec.value (v : CounterVec) (labels : List String) : Nat := (v labels).getD 0

/-- The method `WithLabelValues`: the child for the label values, created at
zero when there is none; the count of no child changes. -/
def CounterVec.WithLabelValues (v : CounterVec) (labels : List String) : CounterVec :=
  fun k => if k = labels then some ((v labels).getD 0) else v k

/-- The method `Inc` on the child for the label values. -/
def CounterVec.Inc (v : CounterVec) (labels : List String) : CounterVec :=
  fun k => if k = labels then (v labels).map (fun n => n + 1) else v k

/-- The three collectors of the package: `requestCounter`, the observations
of `requestDuration`, and `statusCounter`. -/
structure Metrics where
  requestCounter : CounterVec
  requestDuration : List (List String × Rat)
  statusCounter : CounterVec

/-- The field `statusCode` of the wrapping `responseWriter` after the
downstream handler has run: the code of its last `WriteHeader` call, zero
when it made none. -/
def writtenStatus (codes : List Nat) : Nat := codes.getLastD 0

/-- The handler `MetricMiddleware(next)` on one request that the downstream
handler serves without panicking. `codes` are the status codes the handler
passes to `WriteHeader`, in order; `duration` is the elapsed time in seconds;
`statusText` is `http.StatusText`. The last line obtains the child of
`statusCounter` and does nothing with it. -/
def MetricMiddleware (statusText : Nat → String) (m : Metrics) (path method : String)
    (codes : List Nat) (duration : Rat) : Metrics :=
  let statusCode := writtenStatus codes
  { requestCounter := (m.requestCounter.WithLabelValues [path, method]).Inc [path, method],
    requestDuration := m.requestDuration ++ [([path, method], duration)],
    statusCounter := m.statusCounter.WithLabelValues [path, method, statusText statusCode] }

/-- The metrics after the middleware has wrapped one request to the same path
and method for each duration of the list, the handler answering each with
`WriteHeader(200)`. -/
def serveAll (statusText : Nat → String) (path method : String) : Metrics → List Rat → Metrics
  | m, [] => m
  | m, duration :: rest =>
    serveAll statusText path method (MetricMiddleware statusText m path method [200] duration) rest

/-! ## Sample data for the concrete runs -/

/-- An engine row. -/
def sampleEngine : Engine := ⟨⟨1⟩, 2000, 4, 600⟩

/-- A request that passes validation in the year 2026 and names `sampleEngine`. -/
def sampleRequest : CarRequest := ⟨"Civic", "2020", "Honda", "Petrol", sampleEngine, 20000⟩

/-- A car row; its identifier in text is `sampleCarID`. -/
def sampleCar : CarRow := ⟨⟨10⟩, "Civic", "2020", "Honda", "Petrol", ⟨1⟩, 20000, 7, 7⟩

/-- The identifier of `sampleCar`, in text. -/
def sampleCarID : String := "00000000-0000-0000-0000-00000000000a"

/-- The identifier of `sampleEngine`, in text. -/
def sampleEngineID : String := "00000000-0000-0000-0000-000000000001"

/-- A store with one engine and no car, no transaction call made yet. -/
def emptyLot : Store := ⟨⟨[sampleEngine], []⟩, []⟩

/-- A store with one engine and one car, no transaction call made yet. -/
def oneCarLot : Store := ⟨⟨[sampleEngine], [sampleCar]⟩, []⟩

/-- A store that only records the names of the methods called on it. -/
def spyStore : CarStoreInterface (List String) :=
  { GetCarById := fun log _ => (Outcome.returned Car.zero none, log ++ ["GetCarById"]),
    GetCarByBrand := fun log _ _ => (Outcome.returned [] none, log ++ ["GetCarByBrand"]),
    CreateCar := fun log _ => (Outcome.returned Car.zero none, log ++ ["CreateCar"]),
    UpdateCar := fun log _ _ => (Outcome.returned Car.zero none, log ++ ["UpdateCar"]),
    DeleteCar := fun log _ => (Outcome.returned Car.zero none, log ++ ["DeleteCar"]) }

/-- The request `sampleRequest` with its name left empty. -/
def namelessRequest : CarRequest := ⟨"", "2020", "Honda", "Petrol", sampleEngine, 20000⟩

/-- The request `sampleRequest` with NaN as its price. -/
def nanPriceRequest : CarRequest :=
  ⟨"Civic", "2020", "Honda", "Petrol", sampleEngine, Float64.nan⟩

/-- An engine request. -/
def sampleEngineRequest : EngineRequest := ⟨1600, 4, 550⟩

/-- Metrics with no child in any collector. -/
def noMetrics : Metrics := ⟨fun _ => none, [], fun _ => none⟩

/-- The request `sampleRequest` with the displacement of its engine set to zero. -/
def zeroDisplacementRequest : CarRequest :=
  ⟨"Civic", "2020", "Honda", "Petrol", ⟨⟨1⟩, 0, 4, 600⟩, 20000⟩

/-! ## Lemmas on decimal numerals -/

theorem foldl_digits (l : List Char) (a : Nat) :
    l.foldl (fun acc c => acc * 10 + (c.toNat - 48)) a = a * 10 ^ l.length + digitsValue l := by
  unfold digitsValue
  induction l generalizing a with
  | nil => simp
  | cons c cs ih =>
    simp only [List.foldl_cons, List.length_cons]
    rw [ih (a * 10 + (c.toNat - 48)), ih (0 * 10 + (c.toNat - 48))]
    ring

theorem digitsValue_cons (c : Char) (cs : List Char) :
    digitsValue (c :: cs) = (c.toNat - 48) * 10 ^ cs.length + digitsValue cs := by
  have := foldl_digits cs (0 * 10 + (c.toNat - 48))
  simp only [digitsValue, List.foldl_cons] at this ⊢
  rw [this]; ring

theorem digitChar_isDigit (k : Nat) (hk : k < 10) :
    (Nat.digitChar k).isDigit = true ∧ (Nat.digitChar k).toNat - 48 = k := by
  interval_cases k <;> decide

/-- The digits written by `Nat.toDigitsCore` with enough fuel: all decimal,
at least one, and their value is the number written. -/
theorem toDigitsCore_spec (fuel : Nat) : ∀ (n : Nat) (ds : List Char), n < fuel →
    (ds.all Char.isDigit = true → (Nat.toDigitsCore 10 fuel n ds).all Char.isDigit = true) ∧
    digitsValue (Nat.toDigitsCore 10 fuel n ds) = n * 10 ^ ds.length + digitsValue ds ∧
    (Nat.toDigitsCore 10 fuel n ds) ≠ [] := by
  induction fuel with
  | zero => intro n ds h; omega
  | succ f ih =>
    intro n ds h
    have hd := digitChar_isDigit (n % 10) (Nat.mod_lt _ (by decide))
    simp only [Nat.toDigitsCore]
    by_cases h0 : n / 10 = 0
    · simp only [h0, if_true]
      refine ⟨?_, ?_, by simp⟩
      · intro hds; simp [List.all_cons, hd.1, hds]
      · rw [digitsValue_cons, hd.2]
        have : n % 10 = n := Nat.mod_eq_of_lt (by omega)
        rw [this]
    · simp only [h0, if_false]
      have hlt : n / 10 < f := by omega
      obtain ⟨a, b, c⟩ := ih (n / 10) (Nat.digitChar (n % 10) :: ds) hlt
      refine ⟨?_, ?_, c⟩
      · intro hds; apply a; simp [List.all_cons, hd.1, hds]
      · rw [b, digitsValue_cons, hd.2, List.length_cons, pow_succ]
        have hn : n * 10 ^ ds.length = (10 * (n / 10) + n % 10) * 10 ^ ds.length := by
          rw [Nat.div_add_mod n 10]
        rw [hn]; ring

theorem repr_spec (n : Nat) :
    (Nat.repr n).toList.all Char.isDigit = true ∧ digitsValue (Nat.repr n).toList = n ∧
    (Nat.repr n).toList ≠ [] := by
  obtain ⟨a, b, c⟩ := toDigitsCore_spec (n + 1) n [] (Nat.lt_succ_self n)
  refine ⟨a (by simp), ?_, c⟩
  simpa [digitsValue] using b

theorem splitSign_digit (x : Char) (xs : List Char) (hx : x.isDigit = true) :
    splitSign (x :: xs) = (false, x :: xs) := by
  have h1 : x ≠ '-' := by intro h; rw [h] at hx; exact absurd hx (by decide)
  have h2 : x ≠ '+' := by intro h; rw [h] at hx; exact absurd hx (by decide)
  unfold splitSign
  split
  · rename_i heq; simp at heq; exact absurd heq.1 h1
  · rename_i heq; simp at heq; exact absurd heq.1 h2
  · rfl

theorem parseDecimal_repr (n : Nat) : parseDecimal (Nat.repr n) = some (n : Int) := by
  obtain ⟨a, b, c⟩ := repr_spec n
  unfold parseDecimal
  cases hl : (Nat.repr n).toList with
  | nil => exact absurd hl c
  | cons x xs =>
    rw [hl] at a b
    have hx : x.isDigit = true := by
      simp only [List.all_cons, Bool.and_eq_true] at a; exact a.1
    simp only [splitSign_digit x xs hx, List.isEmpty_cons, a, b]
    simp

theorem Itoa_natCast (n : Nat) : Itoa (n : Int) = Nat.repr n := rfl

/-- The decimal rendering of a non-negative integer denotes that integer. -/
theorem parseDecimal_Itoa (c : Int) (h0 : 0 ≤ c) : parseDecimal (Itoa c) = some c := by
  obtain ⟨n, rfl⟩ := Int.eq_ofNat_of_zero_le h0
  rw [Itoa_natCast, parseDecimal_repr]

/-- What `Atoi` answers in terms of the integer denoted. -/
theorem Atoi_eq (s : String) :
    Atoi s = match parseDecimal s with
      | none => none
      | some v => if -(2 : Int) ^ 63 ≤ v ∧ v < (2 : Int) ^ 63 then some v else none := rfl

/-- What `validateYear` answers on a text that denotes the integer `y`. -/
theorem validateYear_of_denotes (c : Int) (hint : c < 2 ^ 63) (s : String) (y : Int)
    (hy : parseDecimal s = some y) : validateYear c s = none ↔ 1886 ≤ y ∧ y ≤ c := by
  have hs : s ≠ "" := by
    intro h
    have he : parseDecimal "" = none := by decide
    rw [h, he] at hy; cases hy
  unfold validateYear
  rw [if_neg hs, Atoi_eq, hy]
  by_cases hr : -(2 : Int) ^ 63 ≤ y ∧ y < (2 : Int) ^ 63
  · simp only [hr, and_self, if_true]
    by_cases hb : y < 1886 ∨ y > c
    · simp only [hb, if_true, errorsNew]
      constructor
      · intro h; exact absurd h (by simp)
      · intro h; omega
    · simp only [hb, if_false, true_iff]
      omega
  · simp only [hr, if_false, errorsNew]
    constructor
    · intro h; exact absurd h (by simp)
    · intro h; exact absurd ⟨by omega, by omega⟩ hr

/-- The function `validateYear` rejects every text that denotes no integer. -/
theorem validateYear_of_not_numeral (c : Int) (s : String) (h : parseDecimal s = none) :
    validateYear c s ≠ none := by
  unfold validateYear
  by_cases hs : s = ""
  · simp [hs, errorsNew]
  · rw [if_neg hs, Atoi_eq, h]; simp [errorsNew]

/-- The function `ValidateFuelType` accepts exactly the four fuel types. -/
theorem fuelType_accepts (s : String) :
    ValidateFuelType s = none ↔
      (s = "Petrol" ∨ s = "Diesel" ∨ s = "Electric" ∨ s = "Hybrid") := by
  unfold ValidateFuelType validateFuelTypes
  simp only [fuelLoop, errorsNew]
  by_cases h1 : s = "Petrol"
  · simp [h1]
  · by_cases h2 : s = "Diesel"
    · simp [h2]
    · by_cases h3 : s = "Electric"
      · simp [h3]
      · by_cases h4 : s = "Hybrid"
        · simp [h4]
        · simp [h1, h2, h3, h4]

/-- The function `validatePrice` accepts the prices that are greater than
zero, and NaN: every price that is not less than or equal to zero. -/
theorem validatePrice_accepts (price : Float64) :
    validatePrice price = none ↔ (Float64.lt 0 price = true ∨ price = Float64.nan) := by
  have hz : (0 : Float64) = Float64.finite 0 := by
    show Float64.finite ((0 : Nat) : Rat) = Float64.finite 0
    rw [Nat.cast_zero]
  unfold validatePrice errorsNew
  rw [hz]
  cases price with
  | finite q =>
    by_cases h : q ≤ 0
    · have h1 : ¬ (0 < q) := not_lt.mpr h
      simp [Float64.le, Float64.lt, h, h1]
    · have h1 : 0 < q := not_le.mp h
      simp [Float64.le, Float64.lt, h, h1]
  | posInf => simp [Float64.le, Float64.lt]
  | negInf => simp [Float64.le, Float64.lt]
  | nan => simp [Float64.le, Float64.lt]

/-- The function `ValidateRequest` returns no error exactly when each of the
five validators returns none. -/
theorem ValidateRequest_none_iff (currentYear : Int) (carReq : CarRequest) :
    ValidateRequest currentYear carReq = none ↔
      validateName carReq.Name = none ∧ validateYear currentYear carReq.Year = none ∧
      ValidateFuelType carReq.FuelType = none ∧ validateEngine carReq.Engine = none ∧
      validatePrice carReq.Price = none := by
  unfold ValidateRequest
  cases validateName carReq.Name <;> cases validateYear currentYear carReq.Year <;>
    cases ValidateFuelType carReq.FuelType <;> cases validateEngine carReq.Engine <;>
    cases validatePrice carReq.Price <;> simp

/-! ## The validators -/

/-- C8, as the claim states it, fails: a request that meets the five listed
conditions in the year 2026 (name, year, fuel type, engine identifier, price)
is rejected because the displacement of its embedded engine is zero, and is
accepted once only that displacement is changed; and a request whose price
is NaN, which is not greater than zero, is accepted, its other fields being
valid. -/
theorem ValidateRequest_reads_engine_fields :
    (zeroDisplacementRequest.Name ≠ "" ∧
      Atoi zeroDisplacementRequest.Year = some 2020 ∧ (1886 : Int) ≤ 2020 ∧ (2020 : Int) ≤ 2026 ∧
      zeroDisplacementRequest.FuelType = "Petrol" ∧
      zeroDisplacementRequest.Engine.EngineID ≠ UUID.Nil ∧
      Float64.lt 0 zeroDisplacementRequest.Price = true) ∧
    ValidateRequest 2026 zeroDisplacementRequest =
      errorsNew "displacement must be greater than zero" ∧
    ValidateRequest 2026
      { zeroDisplacementRequest with
        Engine := { zeroDisplacementRequest.Engine with Displacement := 2000 } } = none ∧
    (Float64.lt 0 nanPriceRequest.Price = false ∧ ValidateRequest 2026 nanPriceRequest = none) := by
  decide

/-- C8, amended: `ValidateRequest` returns no error if and only if the name is
non-empty, the year is a numeral within 1886 and the current year, the fuel
type is one of the four, the engine identifier is not the nil UUID, the
displacement, the cylinder count and the range of the embedded engine are
each greater than zero, and the price is greater than zero or is NaN (it is
not less than or equal to zero, in the comparison of `float64`). -/
theorem ValidateRequest_accepts_iff (currentYear : Int) (carReq : CarRequest) :
    ValidateRequest currentYear carReq = none ↔
      carReq.Name ≠ "" ∧
      (∃ y : Int, Atoi carReq.Year = some y ∧ 1886 ≤ y ∧ y ≤ currentYear) ∧
      (carReq.FuelType = "Petrol" ∨ carReq.FuelType = "Diesel" ∨
        carReq.FuelType = "Electric" ∨ carReq.FuelType = "Hybrid") ∧
      carReq.Engine.EngineID ≠ UUID.Nil ∧
      0 < carReq.Engine.Displacement ∧ 0 < carReq.Engine.NoOfCylinders ∧
      0 < carReq.Engine.CarRange ∧
      (Float64.lt 0 carReq.Price = true ∨ carReq.Price = Float64.nan) := by
  have hname : validateName carReq.Name = none ↔ carReq.Name ≠ "" := by
    unfold validateName errorsNew; by_cases h : carReq.Name = "" <;> simp [h]
  have hyear : validateYear currentYear carReq.Year = none ↔
      ∃ y : Int, Atoi carReq.Year = some y ∧ 1886 ≤ y ∧ y ≤ currentYear := by
    unfold validateYear errorsNew
    by_cases hs : carReq.Year = ""
    · have hA : Atoi "" = none := by decide
      simp [hs, hA]
    · rw [if_neg hs]
      cases hA : Atoi carReq.Year with
      | none => simp
      | some v =>
        by_cases hb : v < 1886 ∨ v > currentYear
        · simp only [hb, if_true]
          constructor
          · intro h; exact absurd h (by simp)
          · rintro ⟨y, hy, h1, h2⟩
            have : v = y := by simpa using hy
            omega
        · simp only [hb, if_false, true_iff]
          exact ⟨v, rfl, by omega, by omega⟩
  have hengine : validateEngine carReq.Engine = none ↔
      carReq.Engine.EngineID ≠ UUID.Nil ∧ 0 < carReq.Engine.Displacement ∧
      0 < carReq.Engine.NoOfCylinders ∧ 0 < carReq.Engine.CarRange := by
    unfold validateEngine errorsNew
    by_cases h1 : carReq.Engine.EngineID = UUID.Nil
    · simp [h1]
    · by_cases h2 : carReq.Engine.Displacement ≤ 0
      · simp only [h1, h2, if_true, if_false]
        constructor
        · intro h; exact absurd h (by simp)
        · intro h; omega
      · by_cases h3 : carReq.Engine.NoOfCylinders ≤ 0
        · simp only [h1, h2, h3, if_true, if_false]
          constructor
          · intro h; exact absurd h (by simp)
          · intro h; omega
        · by_cases h4 : carReq.Engine.CarRange ≤ 0
          · simp only [h1, h2, h3, h4, if_true, if_false]
            constructor
            · intro h; exact absurd h (by simp)
            · intro h; omega
          · simp only [h1, h2, h3, h4, if_false, true_iff]
            exact ⟨h1, by omega, by omega, by omega⟩
  have hprice := validatePrice_accepts carReq.Price
  rw [ValidateRequest_none_iff, hname, hyear, fuelType_accepts, hengine, hprice]
  constructor
  · rintro ⟨a, b, f, ⟨d1, d2, d3, d4⟩, e⟩
    exact ⟨a, b, f, d1, d2, d3, d4, e⟩
  · rintro ⟨a, b, f, d1, d2, d3, d4, e⟩
    exact ⟨a, b, f, ⟨d1, d2, d3, d4⟩, e⟩


/-- C9: for a current year `c` from 1886 on (an `int`), `validateYear` rejects
the empty text and every text that denotes no decimal integer; on a text that
denotes the integer `y` it returns no error if and only if `1886 ≤ y ≤ c`; it
rejects "1885" and the rendering of `c + 1`, and accepts "1886" and the
rendering of `c`. -/
theorem validateYear_bounds (c : Int) (hc : 1886 ≤ c) (hint : c < 2 ^ 63) (s : String) :
    (s = "" → validateYear c s ≠ none) ∧
    (parseDecimal s = none → validateYear c s ≠ none) ∧
    (∀ y : Int, parseDecimal s = some y → (validateYear c s = none ↔ 1886 ≤ y ∧ y ≤ c)) ∧
    validateYear c "1885" ≠ none ∧ validateYear c (Itoa (c + 1)) ≠ none ∧
    validateYear c "1886" = none ∧ validateYear c (Itoa c) = none := by
  refine ⟨?_, validateYear_of_not_numeral c s, validateYear_of_denotes c hint s, ?_, ?_, ?_, ?_⟩
  · intro h; rw [h]; unfold validateYear; simp [errorsNew]
  · intro h
    have := (validateYear_of_denotes c hint "1885" 1885 (by decide)).mp h
    omega
  · intro h
    have := (validateYear_of_denotes c hint (Itoa (c + 1)) (c + 1)
      (parseDecimal_Itoa (c + 1) (by omega))).mp h
    omega
  · exact (validateYear_of_denotes c hint "1886" 1886 (by decide)).mpr ⟨by omega, hc⟩
  · exact (validateYear_of_denotes c hint (Itoa c) c (parseDecimal_Itoa c (by omega))).mpr
      ⟨hc, le_refl c⟩

/-- C9 at the current year 2026 and the text "2000". -/
theorem validateYear_bounds_witness :
    (("2000" : String) = "" → validateYear 2026 "2000" ≠ none) ∧
    (parseDecimal "2000" = none → validateYear 2026 "2000" ≠ none) ∧
    (∀ y : Int, parseDecimal "2000" = some y →
      (validateYear 2026 "2000" = none ↔ 1886 ≤ y ∧ y ≤ 2026)) ∧
    validateYear 2026 "1885" ≠ none ∧ validateYear 2026 (Itoa (2026 + 1)) ≠ none ∧
    validateYear 2026 "1886" = none ∧ validateYear 2026 (Itoa 2026) = none :=
  validateYear_bounds 2026 (by decide) (by decide) "2000"

/-- C10: `ValidateFuelType` returns no error if and only if the text is
exactly one of "Petrol", "Diesel", "Electric", "Hybrid"; the empty text, a
differently-cased variant and a padded variant are rejected. -/
theorem ValidateFuelType_exact (s : String) :
    (ValidateFuelType s = none ↔
      (s = "Petrol" ∨ s = "Diesel" ∨ s = "Electric" ∨ s = "Hybrid")) ∧
    ValidateFuelType "" ≠ none ∧ ValidateFuelType "petrol" ≠ none ∧
    ValidateFuelType "DIESEL" ≠ none ∧ ValidateFuelType " Hybrid" ≠ none ∧
    ValidateFuelType "Electric " ≠ none :=
  ⟨fuelType_accepts s, by decide, by decide, by decide, by decide, by decide⟩

/-! ## The authorisation middleware -/

/-- The three cases of `AuthMiddleware`, by the header it reads and the token
string it extracts. -/
theorem AuthMiddleware_eq (lib : JwtLib) (now : Int) (r : Request) :
    AuthMiddleware lib now r =
      if headerGet r.Header "Authorizatiom" = "" then
        Served.answered 401 "Authorization header required"
      else
        match lib.segments (TrimPrefix (headerGet r.Header "Authorizatiom") "Bearer") with
        | none => Served.answered 401 "Invalid token"
        | some payload =>
          match Claims.decode payload Claims.zero with
          | none => Served.answered 401 "Invalid token"
          | some claims =>
            if claims.std.Valid now = true ∧
                lib.signatureOk (TrimPrefix (headerGet r.Header "Authorizatiom") "Bearer")
                  jwtKey = true then
              Served.next { r with Context := ("username", claims.UserName) :: r.Context }
            else Served.answered 401 "Invalid token" := by
  unfold AuthMiddleware ParseWithClaims
  by_cases h : headerGet r.Header "Authorizatiom" = ""
  · simp [h]
  · simp only [h, if_false]
    cases lib.segments (TrimPrefix (headerGet r.Header "Authorizatiom") "Bearer") with
    | none => simp [errorsNew]
    | some payload =>
      simp only []
      cases Claims.decode payload Claims.zero with
      | none => simp [errorsNew]
      | some claims =>
        simp only []
        split <;> simp [errorsNew]

/-- Every run of `AuthMiddleware` either answers 401, or finds a non-empty
header whose token string parses, verifies and is valid, and calls the
downstream handler with the decoded `UserName` added to the context. -/
theorem AuthMiddleware_cases (lib : JwtLib) (now : Int) (r : Request) :
    (∃ body, AuthMiddleware lib now r = Served.answered 401 body) ∨
    (headerGet r.Header "Authorizatiom" ≠ "" ∧
      ∃ payload claims,
        lib.segments (TrimPrefix (headerGet r.Header "Authorizatiom") "Bearer") = some payload ∧
        Claims.decode payload Claims.zero = some claims ∧
        lib.signatureOk (TrimPrefix (headerGet r.Header "Authorizatiom") "Bearer") jwtKey = true ∧
        claims.std.Valid now = true ∧
        AuthMiddleware lib now r =
          Served.next { r with Context := ("username", claims.UserName) :: r.Context }) := by
  by_cases h : headerGet r.Header "Authorizatiom" = ""
  · left; exact ⟨_, by rw [AuthMiddleware_eq, if_pos h]⟩
  · cases hs : lib.segments (TrimPrefix (headerGet r.Header "Authorizatiom") "Bearer") with
    | none => left; exact ⟨_, by rw [AuthMiddleware_eq, if_neg h, hs]⟩
    | some payload =>
      cases hd : Claims.decode payload Claims.zero with
      | none =>
        left
        exact ⟨"Invalid token", by rw [AuthMiddleware_eq, if_neg h, hs]; simp only [hd]⟩
      | some claims =>
        by_cases hv : claims.std.Valid now = true ∧
            lib.signatureOk (TrimPrefix (headerGet r.Header "Authorizatiom") "Bearer")
              jwtKey = true
        · right
          exact ⟨h, payload, claims, rfl, hd, hv.2, hv.1, by
            rw [AuthMiddleware_eq, if_neg h, hs]; simp only [hd, if_pos hv]⟩
        · left
          exact ⟨"Invalid token", by
            rw [AuthMiddleware_eq, if_neg h, hs]; simp only [hd, if_neg hv]⟩

/-- C5: `AuthMiddleware` calls the downstream handler only when the header it
reads is non-empty, the token string parses (segments and claims), its
signature verifies under `jwtKey` and its claims are valid at `now` (not
expired in particular); and when the token is absent, malformed, wrongly
signed or expired it answers 401, which is not a call of the downstream
handler. -/
theorem AuthMiddleware_guards_next (lib : JwtLib) (now : Int) (r : Request) :
    (∀ r1, AuthMiddleware lib now r = Served.next r1 →
      headerGet r.Header "Authorizatiom" ≠ "" ∧
      ∃ payload claims,
        lib.segments (TrimPrefix (headerGet r.Header "Authorizatiom") "Bearer") = some payload ∧
        Claims.decode payload Claims.zero = some claims ∧
        lib.signatureOk (TrimPrefix (headerGet r.Header "Authorizatiom") "Bearer") jwtKey = true ∧
        (claims.std.ExpiresAt = 0 ∨ now < claims.std.ExpiresAt) ∧
        claims.std.Valid now = true) ∧
    (headerGet r.Header "Authorizatiom" = "" →
      ∃ body, AuthMiddleware lib now r = Served.answered 401 body) ∧
    (lib.segments (TrimPrefix (headerGet r.Header "Authorizatiom") "Bearer") = none →
      ∃ body, AuthMiddleware lib now r = Served.answered 401 body) ∧
    (∀ payload,
      lib.segments (TrimPrefix (headerGet r.Header "Authorizatiom") "Bearer") = some payload →
      Claims.decode payload Claims.zero = none →
      ∃ body, AuthMiddleware lib now r = Served.answered 401 body) ∧
    (lib.signatureOk (TrimPrefix (headerGet r.Header "Authorizatiom") "Bearer") jwtKey = false →
      ∃ body, AuthMiddleware lib now r = Served.answered 401 body) ∧
    (∀ payload claims,
      lib.segments (TrimPrefix (headerGet r.Header "Authorizatiom") "Bearer") = some payload →
      Claims.decode payload Claims.zero = some claims →
      claims.std.ExpiresAt ≠ 0 → claims.std.ExpiresAt ≤ now →
      ∃ body, AuthMiddleware lib now r = Served.answered 401 body) := by
  rcases AuthMiddleware_cases lib now r with ⟨body, hb⟩ | ⟨h, payload, claims, hs, hd, hsig, hv, _⟩
  · refine ⟨?_, fun _ => ⟨body, hb⟩, fun _ => ⟨body, hb⟩, fun _ _ _ => ⟨body, hb⟩,
      fun _ => ⟨body, hb⟩, fun _ _ _ _ _ _ => ⟨body, hb⟩⟩
    intro r1 h1; rw [hb] at h1; cases h1
  · have hexp : claims.std.ExpiresAt = 0 ∨ now < claims.std.ExpiresAt := by
      have := hv
      simp only [StandardClaims.Valid, decide_eq_true_eq] at this
      exact this.1
    refine ⟨fun _ _ => ⟨h, payload, claims, hs, hd, hsig, hexp, hv⟩, ?_, ?_, ?_, ?_, ?_⟩
    · intro h1; exact absurd h1 h
    · intro h1; rw [hs] at h1; cases h1
    · intro p hp hn
      rw [hs] at hp; cases hp; rw [hd] at hn; cases hn
    · intro h1; rw [hsig] at h1; cases h1
    · intro p c hp hc h0 hle
      rw [hs] at hp; cases hp; rw [hd] at hc; cases hc
      omega

/-- C6, evidence: a request that carries `Authorization: Bearer <token>`, and
no other header, is answered 401 whatever the token is, because the header
read is `Authorizatiom`; and trimming `Bearer` from `Bearer <token>` leaves
the separating space in front of the token. -/
theorem AuthMiddleware_rejects_bearer_header (lib : JwtLib) (now : Int) (token : String)
    (ctx : List (String × String)) :
    AuthMiddleware lib now ⟨[("Authorization", "Bearer " ++ token)], ctx⟩ =
      Served.answered 401 "Authorization header required" ∧
    TrimPrefix ("Bearer " ++ token) "Bearer" = " " ++ token := by
  constructor
  · rw [AuthMiddleware_eq]
    have : headerGet [("Authorization", "Bearer " ++ token)] "Authorizatiom" = "" := by
      unfold headerGet
      have hne : (("Authorization" : String) == "Authorizatiom") = false := by decide
      simp [List.find?, hne]
    simp [this]
  · unfold TrimPrefix
    have h1 : ("Bearer " ++ token).toList = 'B' :: 'e' :: 'a' :: 'r' :: 'e' :: 'r' :: ' ' :: token.toList := by
      simp [String.toList, String.data_append]
    have h2 : ("Bearer" : String).toList = ['B', 'e', 'a', 'r', 'e', 'r'] := rfl
    rw [h1, h2]
    simp only [List.isPrefixOf, List.length_cons, List.length_nil]
    simp
    apply String.ext
    simp [String.data_append]

/-- C7, evidence: the claims object `GenerateToken` signs for the user name
`u` decodes into a `Claims` whose `UserName`, the field the middleware
attaches to the context, is empty: the name sits in `Subject`. -/
theorem token_subject_not_username (now issued : Int) (u : String) :
    Claims.decode (issuedClaims now issued u).toJSON Claims.zero =
      some ⟨"", issuedClaims now issued u⟩ := by
  unfold issuedClaims StandardClaims.toJSON
  by_cases h1 : now + 86400 = 0 <;> by_cases h2 : issued = 0 <;> by_cases h3 : u = "" <;>
    simp [strMember, numMember, h1, h2, h3, Claims.decode, Claims.setMember, Claims.zero]

/-! ## The stores -/

/-- C1: when no engine row carries the identifier the request names,
`CreateCar` returns a non-nil error, which is "engine_id does not exist in
the engine table" whenever the lookup query itself ran; it opens no
transaction and leaves the store, its car rows in particular, as it was. -/
theorem CreateCar_missing_engine (d : Driver) (st : Store) (carReq : CarRequest)
    (h : ∀ e ∈ st.db.engine, e.EngineID ≠ carReq.Engine.EngineID) :
    (∃ err, (CarStore.CreateCar d st carReq).1 = Outcome.returned Car.zero (some err)) ∧
    (d.lookup = none → (CarStore.CreateCar d st carReq).1 =
      Outcome.returned Car.zero (errorsNew "engine_id does not exist in the engine table")) ∧
    (CarStore.CreateCar d st carReq).2.calls = st.calls ∧
    begins (CarStore.CreateCar d st carReq).2.calls = begins st.calls ∧
    (CarStore.CreateCar d st carReq).2.db.cars = st.db.cars ∧
    (CarStore.CreateCar d st carReq).2 = st := by
  have hfind : st.db.engine.find? (fun e => e.EngineID == carReq.Engine.EngineID) = none := by
    rw [List.find?_eq_none]
    intro e he
    simpa using h e he
  unfold CarStore.CreateCar
  cases hl : d.lookup with
  | some text => simp
  | none => simp [hfind, errorsNew]

/-- C1 at a store whose only engine has identifier 2, for a request naming
engine 1. -/
theorem CreateCar_missing_engine_witness :
    (∀ e ∈ ([⟨⟨2⟩, 1500, 4, 500⟩] : List Engine), e.EngineID ≠ sampleRequest.Engine.EngineID) ∧
    (CarStore.CreateCar (Driver.quiet ⟨10⟩ 7 1) ⟨⟨[⟨⟨2⟩, 1500, 4, 500⟩], [sampleCar]⟩, []⟩
        sampleRequest).1 =
      Outcome.returned Car.zero (errorsNew "engine_id does not exist in the engine table") ∧
    (CarStore.CreateCar (Driver.quiet ⟨10⟩ 7 1) ⟨⟨[⟨⟨2⟩, 1500, 4, 500⟩], [sampleCar]⟩, []⟩
        sampleRequest).2 = ⟨⟨[⟨⟨2⟩, 1500, 4, 500⟩], [sampleCar]⟩, []⟩ :=
  have hyp : ∀ e ∈ ([⟨⟨2⟩, 1500, 4, 500⟩] : List Engine),
      e.EngineID ≠ sampleRequest.Engine.EngineID := by decide
  have w := CreateCar_missing_engine (Driver.quiet ⟨10⟩ 7 1)
    ⟨⟨[⟨⟨2⟩, 1500, 4, 500⟩], [sampleCar]⟩, []⟩ sampleRequest hyp
  ⟨hyp, w.2.1 rfl, w.2.2.2.2.2⟩

/-- C2, evidence: for a request that passes validation and names an engine in
the store, `CreateCar` returns no car. When the driver does not support
`LastInsertId` it returns that error and the insert is rolled back; when
`LastInsertId` answers 1, the text "1" is no UUID, `uuid.Must` panics, and the
deferred closure commits the row under an identifier the caller never sees. -/
theorem CreateCar_valid_request_no_car :
    ValidateRequest 2026 sampleRequest = none ∧
    sampleRequest.Engine ∈ emptyLot.db.engine ∧
    CarStore.CreateCar
        { Driver.quiet ⟨10⟩ 7 1 with
          lastInsertId := Except.error "LastInsertId is not supported by this driver" }
        emptyLot sampleRequest =
      (Outcome.returned Car.zero
          (some (GoError.msg "LastInsertId is not supported by this driver")),
        ⟨⟨[sampleEngine], []⟩, [TxCall.begin, TxCall.rollback, TxCall.rollback]⟩) ∧
    uuidParse (Itoa 1) = none ∧
    CarStore.CreateCar (Driver.quiet ⟨10⟩ 7 1) emptyLot sampleRequest =
      (Outcome.panicked, ⟨⟨[sampleEngine], [sampleCar]⟩, [TxCall.begin, TxCall.commit]⟩) := by
  decide

/-- C3, evidence: two error returns after `BeginTx` that are not rolled back.
`DeleteCar`, when another session has deleted the row between the read and
the delete, returns "no rows were deleted" and commits; `GetEngineById`, when
its own commit fails, returns that error and calls `Commit` once more, never
`Rollback`. -/
theorem error_return_not_rolled_back :
    CarStore.DeleteCar { Driver.quiet ⟨10⟩ 7 1 with raced := true } oneCarLot sampleCarID =
      (Outcome.returned Car.zero (errorsNew "no rows were deleted"),
        ⟨⟨[sampleEngine], []⟩, [TxCall.begin, TxCall.commit]⟩) ∧
    EngineStore.GetEngineById { Driver.quiet ⟨10⟩ 7 1 with commit := some "connection lost" }
        emptyLot sampleEngineID =
      (Outcome.returned Engine.zero (some (GoError.msg "connection lost")),
        ⟨⟨[sampleEngine], []⟩, [TxCall.begin, TxCall.commit, TxCall.commit]⟩) := by
  decide

/-- C4, evidence: three exits with other than one finishing call of the
right kind. A successful `GetEngineById` calls `Commit` twice; `CreateCar`
whose insert fails calls `Rollback` twice; `UpdateCar` whose statement panics
calls `Commit`, not `Rollback`. -/
theorem finishing_calls_not_once :
    (EngineStore.GetEngineById (Driver.quiet ⟨10⟩ 7 1) emptyLot sampleEngineID =
        (Outcome.returned sampleEngine none,
          ⟨⟨[sampleEngine], []⟩, [TxCall.begin, TxCall.commit, TxCall.commit]⟩) ∧
      commits (EngineStore.GetEngineById (Driver.quiet ⟨10⟩ 7 1) emptyLot
        sampleEngineID).2.calls = 2) ∧
    (CarStore.CreateCar { Driver.quiet ⟨10⟩ 7 1 with exec := Stmt.fails "insert failed" }
          emptyLot sampleRequest =
        (Outcome.returned Car.zero (some (GoError.msg "insert failed")),
          ⟨⟨[sampleEngine], []⟩, [TxCall.begin, TxCall.rollback, TxCall.rollback]⟩) ∧
      rollbacks (CarStore.CreateCar
        { Driver.quiet ⟨10⟩ 7 1 with exec := Stmt.fails "insert failed" }
        emptyLot sampleRequest).2.calls = 2) ∧
    (CarStore.UpdateCar { Driver.quiet ⟨10⟩ 7 1 with exec := Stmt.panics } oneCarLot ⟨10⟩
          sampleRequest =
        (Outcome.panicked, ⟨⟨[sampleEngine], [sampleCar]⟩, [TxCall.begin, TxCall.commit]⟩) ∧
      rollbacks (CarStore.UpdateCar { Driver.quiet ⟨10⟩ 7 1 with exec := Stmt.panics }
        oneCarLot ⟨10⟩ sampleRequest).2.calls = 0) := by
  decide

/-! ## Validation in the service and the handler -/

/-- What the service returns on a request that validation rejects. -/
theorem CarService_unfold {σ : Type} (store : CarStoreInterface σ) (currentYear : Int)
    (s : σ) (carReq : CarRequest) (err : GoError)
    (h : ValidateRequest currentYear carReq = some err) :
    CarService.CreateCar store currentYear s carReq = (Outcome.returned none (some err), s) ∧
    ∀ id, CarService.UpdateCar store currentYear s id carReq =
      (Outcome.returned none (some err), s) := by
  unfold CarService.CreateCar CarService.UpdateCar
  rw [h]
  exact ⟨rfl, fun _ => rfl⟩


/-- C11: `ValidateRequest` returns the error of the first failing check in the
order name, year, fuel type, engine, price, whatever the later checks say; a
request that fails some check is rejected; and a request with an empty name
gets "name is required" whatever its other fields are. -/
theorem ValidateRequest_first_failure (currentYear : Int) (carReq : CarRequest) :
    (∀ e, validateName carReq.Name = some e → ValidateRequest currentYear carReq = some e) ∧
    (∀ e, validateName carReq.Name = none →
      validateYear currentYear carReq.Year = some e →
      ValidateRequest currentYear carReq = some e) ∧
    (∀ e, validateName carReq.Name = none →
      validateYear currentYear carReq.Year = none →
      ValidateFuelType carReq.FuelType = some e →
      ValidateRequest currentYear carReq = some e) ∧
    (∀ e, validateName carReq.Name = none →
      validateYear currentYear carReq.Year = none →
      ValidateFuelType carReq.FuelType = none →
      validateEngine carReq.Engine = some e →
      ValidateRequest currentYear carReq = some e) ∧
    (∀ e, validateName carReq.Name = none →
      validateYear currentYear carReq.Year = none →
      ValidateFuelType carReq.FuelType = none →
      validateEngine carReq.Engine = none →
      validatePrice carReq.Price = some e →
      ValidateRequest currentYear carReq = some e) ∧
    ((validateName carReq.Name ≠ none ∨ validateYear currentYear carReq.Year ≠ none ∨
        ValidateFuelType carReq.FuelType ≠ none ∨ validateEngine carReq.Engine ≠ none ∨
        validatePrice carReq.Price ≠ none) →
      ∃ e, ValidateRequest currentYear carReq = some e) ∧
    (carReq.Name = "" → ValidateRequest currentYear carReq = errorsNew "name is required") := by
  refine ⟨?_, ?_, ?_, ?_, ?_, ?_, ?_⟩
  · intro e h1; unfold ValidateRequest; rw [h1]
  · intro e h1 h2; unfold ValidateRequest; rw [h1, h2]
  · intro e h1 h2 h3; unfold ValidateRequest; rw [h1, h2, h3]
  · intro e h1 h2 h3 h4; unfold ValidateRequest; rw [h1, h2, h3, h4]
  · intro e h1 h2 h3 h4 h5; unfold ValidateRequest; rw [h1, h2, h3, h4, h5]
  · intro h
    cases hv : ValidateRequest currentYear carReq with
    | some e => exact ⟨e, rfl⟩
    | none =>
      obtain ⟨a, b, c, d, e⟩ := (ValidateRequest_none_iff currentYear carReq).mp hv
      rcases h with h | h | h | h | h
      · exact absurd a h
      · exact absurd b h
      · exact absurd c h
      · exact absurd d h
      · exact absurd e h
  · intro h
    have h1 : validateName carReq.Name = errorsNew "name is required" := by
      unfold validateName; rw [if_pos h]
    unfold ValidateRequest; rw [h1]; rfl

/-- C12: when `ValidateRequest` rejects the request, `CarService.CreateCar` and
`CarService.UpdateCar` return the nil car with that error, whatever store they
are given, and hand the state of the store back as they received it: no
method of the store is called. -/
theorem CarService_rejects_before_store {σ : Type} (store : CarStoreInterface σ)
    (currentYear : Int) (s : σ) (id : UUID) (carReq : CarRequest) (err : GoError)
    (h : ValidateRequest currentYear carReq = some err) :
    CarService.CreateCar store currentYear s carReq = (Outcome.returned none (some err), s) ∧
    CarService.UpdateCar store currentYear s id carReq =
      (Outcome.returned none (some err), s) := by
  unfold CarService.CreateCar CarService.UpdateCar
  rw [h]
  exact ⟨rfl, rfl⟩

/-- C12 on the recording store, for a request without a name: the record of
calls stays empty. -/
theorem CarService_rejects_before_store_witness :
    ValidateRequest 2026 namelessRequest = some (GoError.msg "name is required") ∧
    CarService.CreateCar spyStore 2026 [] namelessRequest =
      (Outcome.returned none (some (GoError.msg "name is required")), []) ∧
    CarService.UpdateCar spyStore 2026 [] ⟨10⟩ namelessRequest =
      (Outcome.returned none (some (GoError.msg "name is required")), []) :=
  have hyp : ValidateRequest 2026 namelessRequest = some (GoError.msg "name is required") := by
    decide
  ⟨hyp, CarService_rejects_before_store spyStore 2026 [] ⟨10⟩ namelessRequest
    (GoError.msg "name is required") hyp⟩

/-- C17, as the claim states it, fails: for a decoded request without a name,
which `ValidateRequest` rejects, `CarHandler.CreateCar` and
`CarHandler.UpdateCar` answer 500, not 400. -/
theorem CarHandler_validation_error_is_500 :
    ValidateRequest 2026 namelessRequest = errorsNew "name is required" ∧
    CarHandler.CreateCar (NewCarService spyStore 2026) [] (Except.ok namelessRequest) =
      (Reply.error "name is required" 500, []) ∧
    CarHandler.UpdateCar (NewCarService spyStore 2026) [] sampleCarID
        (Except.ok namelessRequest) =
      (Reply.error "name is required" 500, []) ∧
    (CarHandler.CreateCar (NewCarService spyStore 2026) [] (Except.ok namelessRequest)).1.status
      ≠ some 400 := by
  decide

/-- C17, amended: when `ValidateRequest` rejects the decoded request,
`CarHandler.CreateCar` answers 500 with the validation message, and
`CarHandler.UpdateCar` answers 500 with it when the path identifier is a UUID
text and 400 "Invalid ID format" when it is not; the store is not touched.
And 500 is what the two handlers answer to every error a service returns. -/
theorem CarHandler_validation_error_status {σ : Type} (store : CarStoreInterface σ)
    (currentYear : Int) (s : σ) (id : String) (carReq : CarRequest) (err : GoError)
    (h : ValidateRequest currentYear carReq = some err) :
    CarHandler.CreateCar (NewCarService store currentYear) s (Except.ok carReq) =
      (Reply.error err.Error 500, s) ∧
    (∀ carID, uuidParse id = some carID →
      CarHandler.UpdateCar (NewCarService store currentYear) s id (Except.ok carReq) =
        (Reply.error err.Error 500, s)) ∧
    (uuidParse id = none →
      CarHandler.UpdateCar (NewCarService store currentYear) s id (Except.ok carReq) =
        (Reply.error "Invalid ID format" 400, s)) ∧
    (∀ (service : CarServiceInterface σ) (car : Option Car) (e : GoError) (s1 : σ),
      service.CreateCar s carReq = (Outcome.returned car (some e), s1) →
      CarHandler.CreateCar service s (Except.ok carReq) = (Reply.error e.Error 500, s1)) ∧
    (∀ (service : CarServiceInterface σ) (carID : UUID) (car : Option Car) (e : GoError)
      (s1 : σ), uuidParse id = some carID →
      service.UpdateCar s carID carReq = (Outcome.returned car (some e), s1) →
      CarHandler.UpdateCar service s id (Except.ok carReq) = (Reply.error e.Error 500, s1)) := by
  have hs := CarService_unfold store currentYear s carReq err h
  refine ⟨?_, ?_, ?_, ?_, ?_⟩
  · unfold CarHandler.CreateCar NewCarService
    simp only [hs.1]
  · intro carID hid
    unfold CarHandler.UpdateCar NewCarService
    simp only [hid, hs.2 carID]
  · intro hid
    unfold CarHandler.UpdateCar
    simp only [hid]
  · intro service car e s1 hsvc
    unfold CarHandler.CreateCar
    simp only [hsvc]
  · intro service carID car e s1 hid hsvc
    unfold CarHandler.UpdateCar
    simp only [hid, hsvc]

/-- C17, amended, for the request without a name in the year 2026: 500 from
`CreateCar`, 500 from `UpdateCar` under the identifier of the sample car, and
400 from `UpdateCar` under an identifier of 38 characters and 39 bytes. -/
theorem CarHandler_validation_error_status_witness :
    ValidateRequest 2026 namelessRequest = some (GoError.msg "name is required") ∧
    CarHandler.CreateCar (NewCarService spyStore 2026) [] (Except.ok namelessRequest) =
      (Reply.error "name is required" 500, []) ∧
    CarHandler.UpdateCar (NewCarService spyStore 2026) [] sampleCarID
        (Except.ok namelessRequest) =
      (Reply.error "name is required" 500, []) ∧
    CarHandler.UpdateCar (NewCarService spyStore 2026) []
        "x6ba7b810-9dad-11d1-80b4-00c04fd430c8é" (Except.ok namelessRequest) =
      (Reply.error "Invalid ID format" 400, []) :=
  have hyp : ValidateRequest 2026 namelessRequest = some (GoError.msg "name is required") := by
    decide
  ⟨hyp,
    (CarHandler_validation_error_status spyStore 2026 [] sampleCarID namelessRequest
      (GoError.msg "name is required") hyp).1,
    (CarHandler_validation_error_status spyStore 2026 [] sampleCarID namelessRequest
      (GoError.msg "name is required") hyp).2.1 ⟨10⟩ (by decide),
    (CarHandler_validation_error_status spyStore 2026 []
      "x6ba7b810-9dad-11d1-80b4-00c04fd430c8é" namelessRequest
      (GoError.msg "name is required") hyp).2.2.1 (by decide)⟩

/-! ## Reads, deletes and updates of the stores -/

/-- The rows left by a filter on "not this identifier" are all the rows, when
no row carries the identifier. -/
theorem filter_of_none {α : Type} (p : α → Bool) (l : List α)
    (h : ∀ x ∈ l, p x = false) : l.filter (fun x => !p x) = l := by
  rw [List.filter_eq_self]
  intro x hx
  simp [h x hx]

/-- With pairwise distinct keys, removing the rows a key-predicate holds of
removes exactly the first such row. -/
theorem filter_eq_erase {α κ : Type} [DecidableEq α] (key : α → κ) (q : κ → Bool)
    (hq : ∀ a b, q a = true → q b = true → a = b) (l : List α) (row : α)
    (hfind : l.find? (fun x => q (key x)) = some row) (hnd : (l.map key).Nodup) :
    l.filter (fun x => !q (key x)) = l.erase row := by
  induction l with
  | nil => simp at hfind
  | cons x xs ih =>
    rw [List.map_cons, List.nodup_cons] at hnd
    by_cases hx : q (key x) = true
    · have hrow : x = row := by simpa [List.find?, hx] using hfind
      subst hrow
      have hrest : ∀ y ∈ xs, q (key y) = false := by
        intro y hy
        by_contra hny
        have hy1 : q (key y) = true := by simpa using hny
        have : key y = key x := hq _ _ hy1 hx
        exact hnd.1 (this ▸ List.mem_map_of_mem key hy)
      simp [List.filter, hx, filter_of_none (fun y => q (key y)) xs hrest]
    · have hx0 : q (key x) = false := by simpa using hx
      have hfind1 : xs.find? (fun y => q (key y)) = some row := by
        simpa [List.find?, hx0] using hfind
      have hne : x ≠ row := by
        intro h
        have := List.find?_some hfind1
        rw [← h] at this
        simp [hx0] at this
      have hne1 : (x == row) = false := by simpa using hne
      simp [List.filter, hx0, List.erase_cons, hne1, ih hfind1 hnd.2]

/-- C13: with no matching car row `GetCarById` returns the zero car and a nil
error; with no matching engine row `GetEngineById` returns the zero engine and
the error "engine not found" (the driver answering the calls), and a zero
engine with some non-nil error whatever the driver answers short of a panic. -/
theorem not_found_policies (d : Driver) (st : Store) (carID engineID : String)
    (hcar : ∀ r ∈ st.db.cars, idIs carID r.id = false)
    (hengine : ∀ e ∈ st.db.engine, idIs engineID e.EngineID = false)
    (hl : d.lookup = none) (hb : d.beginTx = none) (hq : d.query = Stmt.ok) :
    CarStore.GetCarById d st carID = (Outcome.returned Car.zero none, st) ∧
    (EngineStore.GetEngineById d st engineID).1 =
      Outcome.returned Engine.zero (errorsNew "engine not found") ∧
    (EngineStore.GetEngineById d st engineID).2.db = st.db ∧
    (∀ d1 : Driver, d1.query ≠ Stmt.panics →
      ∃ err, (EngineStore.GetEngineById d1 st engineID).1 =
        Outcome.returned Engine.zero (some err)) := by
  have hfc : st.db.cars.find? (fun r => idIs carID r.id) = none := by
    rw [List.find?_eq_none]; intro r hr; simp [hcar r hr]
  have hfe : st.db.engine.find? (fun e => idIs engineID e.EngineID) = none := by
    rw [List.find?_eq_none]; intro e he; simp [hengine e he]
  refine ⟨?_, ?_, ?_, ?_⟩
  · unfold CarStore.GetCarById
    simp [hl, hfc]
  · unfold EngineStore.GetEngineById BeginTx
    simp [hb, hq, hfe]
  · unfold EngineStore.GetEngineById BeginTx
    simp [hb, hq, hfe, deferred, Tx.Rollback]
  · intro d1 hp
    unfold EngineStore.GetEngineById BeginTx
    cases hb1 : d1.beginTx with
    | some text => exact ⟨_, rfl⟩
    | none =>
      cases hq1 : d1.query with
      | panics => exact absurd hq1 hp
      | fails text => exact ⟨_, rfl⟩
      | ok => simp [hfe, errorsNew]

/-- C13 on the store with one engine and one car, for identifiers of no row. -/
theorem not_found_policies_witness :
    CarStore.GetCarById (Driver.quiet ⟨10⟩ 7 1) oneCarLot sampleEngineID =
      (Outcome.returned Car.zero none, oneCarLot) ∧
    (EngineStore.GetEngineById (Driver.quiet ⟨10⟩ 7 1) oneCarLot sampleCarID).1 =
      Outcome.returned Engine.zero (errorsNew "engine not found") :=
  have w := not_found_policies (Driver.quiet ⟨10⟩ 7 1) oneCarLot sampleEngineID sampleCarID
    (by decide) (by decide) rfl rfl rfl
  ⟨w.1, w.2.1⟩

/-- C14: the driver answering every call with success, `DeleteCar` on an
identifier of no car row returns "car not found" and leaves the rows as they
were; on the identifier of a car row that its `DELETE` affects it returns the
scalar fields of that row with a nil error, the car table loses the rows of
that identifier (exactly that row when identifiers are distinct) and the
engine table is unchanged; and when the `DELETE` affects no row despite the
read, it returns "no rows were deleted" with the zero car. -/
theorem DeleteCar_cases (d : Driver) (st : Store) (id : String)
    (hb : d.beginTx = none) (hq : d.query = Stmt.ok) (he : d.exec = Stmt.ok)
    (hr : d.rowsAffected = none) (hc : d.commit = none) :
    ((∀ r ∈ st.db.cars, idIs id r.id = false) →
      (CarStore.DeleteCar d st id).1 = Outcome.returned Car.zero (errorsNew "car not found") ∧
      (CarStore.DeleteCar d st id).2.db = st.db) ∧
    (∀ row, st.db.cars.find? (fun r => idIs id r.id) = some row → d.raced = false →
      (CarStore.DeleteCar d st id).1 =
        Outcome.returned
          ⟨row.id, row.name, row.year, row.brand, row.fuel_type, Engine.zero, row.price,
            row.created_at, row.updated_at⟩ none ∧
      (CarStore.DeleteCar d st id).2.db.cars = st.db.cars.filter (fun r => !idIs id r.id) ∧
      ((st.db.cars.map CarRow.id).Nodup →
        (CarStore.DeleteCar d st id).2.db.cars = st.db.cars.erase row) ∧
      (CarStore.DeleteCar d st id).2.db.engine = st.db.engine) ∧
    (∀ row, st.db.cars.find? (fun r => idIs id r.id) = some row → d.raced = true →
      (CarStore.DeleteCar d st id).1 =
        Outcome.returned Car.zero (errorsNew "no rows were deleted")) := by
  refine ⟨?_, ?_, ?_⟩
  · intro hnone
    have hf : st.db.cars.find? (fun r => idIs id r.id) = none := by
      rw [List.find?_eq_none]; intro r hr; simp [hnone r hr]
    unfold CarStore.DeleteCar BeginTx
    simp [hb, hq, hf, deferred, Tx.Rollback]
  · intro row hf hraced
    have hmem : row ∈ st.db.cars.filter (fun r => idIs id r.id) := by
      rw [List.mem_filter]
      have hp := List.find?_some hf
      exact ⟨List.mem_of_find?_eq_some hf, hp⟩
    have hlen : (st.db.cars.filter (fun r => idIs id r.id)).length ≠ 0 := by
      intro h0
      rw [List.length_eq_zero] at h0
      rw [h0] at hmem
      cases hmem
    have hres : (CarStore.DeleteCar d st id).2.db.cars =
        st.db.cars.filter (fun r => !idIs id r.id) := by
      unfold CarStore.DeleteCar BeginTx
      simp [hb, hq, he, hr, hc, hf, hraced, hlen, deferred, Tx.Commit, DB.withoutCar, Car.zero]
    refine ⟨?_, hres, ?_, ?_⟩
    · unfold CarStore.DeleteCar BeginTx
      simp [hb, hq, he, hr, hc, hf, hraced, hlen, deferred, Tx.Commit, DB.withoutCar, Car.zero]
    · intro hnd
      rw [hres]
      exact filter_eq_erase CarRow.id (fun u => uuidParse id == some u)
        (fun a b ha hb1 => by
          have ha1 : uuidParse id = some a := by simpa using ha
          have hb2 : uuidParse id = some b := by simpa using hb1
          rw [ha1] at hb2; exact Option.some.inj hb2)
        st.db.cars row hf hnd
    · unfold CarStore.DeleteCar BeginTx
      simp [hb, hq, he, hr, hc, hf, hraced, hlen, deferred, Tx.Commit, DB.withoutCar, Car.zero]
  · intro row hf hraced
    unfold CarStore.DeleteCar BeginTx
    simp [hb, hq, he, hr, hc, hf, hraced, deferred, Tx.Commit, DB.withoutCar, Car.zero]

/-- C14 on the store with one engine and one car: deleting the car returns
its scalar fields and leaves the engine. -/
theorem DeleteCar_cases_witness :
    CarStore.DeleteCar (Driver.quiet ⟨10⟩ 7 1) oneCarLot sampleCarID =
      (Outcome.returned
          ⟨⟨10⟩, "Civic", "2020", "Honda", "Petrol", Engine.zero, 20000, 7, 7⟩ none,
        ⟨⟨[sampleEngine], []⟩, [TxCall.begin, TxCall.commit]⟩) ∧
    (CarStore.DeleteCar (Driver.quiet ⟨10⟩ 7 1) oneCarLot sampleCarID).2.db.cars =
      oneCarLot.db.cars.erase sampleCar :=
  have w := (DeleteCar_cases (Driver.quiet ⟨10⟩ 7 1) oneCarLot sampleCarID
    rfl rfl rfl rfl rfl).2.1 sampleCar (by decide) rfl
  ⟨by decide, w.2.2.1 (by decide)⟩

/-- The store after an `UpdateCar` whose calls the driver answers with
success: the cars mapped by the update, one more transaction committed. -/
theorem UpdateCar_committed (d : Driver) (st : Store) (id : UUID) (carReq : CarRequest)
    (hb : d.beginTx = none) (he : d.exec = Stmt.ok) (hc : d.commit = none) :
    (CarStore.UpdateCar d st id carReq).2.db =
      { st.db with cars := st.db.cars.map (fun r =>
          if r.id = id then
            { r with name := carReq.Name, year := carReq.Year, brand := carReq.Brand,
                     fuel_type := carReq.FuelType, price := carReq.Price,
                     updated_at := d.now }
          else r) } := by
  unfold CarStore.UpdateCar BeginTx
  simp [hb, he, hc, deferred, Tx.Commit]

/-- An `UpdateCar` that returns a nil error had its transaction opened and its
statement run. -/
theorem UpdateCar_nil_error (d : Driver) (st : Store) (id : UUID) (carReq : CarRequest)
    (car : Car) (h : (CarStore.UpdateCar d st id carReq).1 = Outcome.returned car none) :
    d.beginTx = none ∧ d.exec = Stmt.ok := by
  unfold CarStore.UpdateCar BeginTx at h
  cases hb : d.beginTx with
  | some text => rw [hb] at h; simp at h
  | none =>
    cases he : d.exec with
    | ok => exact ⟨rfl, rfl⟩
    | fails text => rw [hb, he] at h; simp at h
    | panics => rw [hb, he] at h; simp at h

/-- C15: after an `UpdateCar` that returned a nil error and whose transaction
was committed, the engine table is as before and the car table has the same
rows in the same order, each with its identifier, engine reference and
`created_at` as before; a row of another identifier is unchanged, and the
row of the identifier carries the name, year, brand, fuel type and price of
the request and the time of the call as `updated_at`. -/
theorem UpdateCar_frame (d : Driver) (st : Store) (id : UUID) (carReq : CarRequest) (car : Car)
    (h : (CarStore.UpdateCar d st id carReq).1 = Outcome.returned car none)
    (hc : d.commit = none) :
    (CarStore.UpdateCar d st id carReq).2.db.engine = st.db.engine ∧
    List.Forall₂
      (fun old new : CarRow =>
        new.id = old.id ∧ new.engine_id = old.engine_id ∧ new.created_at = old.created_at ∧
        (old.id ≠ id → new = old) ∧
        (old.id = id →
          new.name = carReq.Name ∧ new.year = carReq.Year ∧ new.brand = carReq.Brand ∧
          new.fuel_type = carReq.FuelType ∧ new.price = carReq.Price ∧
          new.updated_at = d.now))
      st.db.cars (CarStore.UpdateCar d st id carReq).2.db.cars := by
  obtain ⟨hb, he⟩ := UpdateCar_nil_error d st id carReq car h
  rw [UpdateCar_committed d st id carReq hb he hc]
  refine ⟨rfl, ?_⟩
  simp only []
  rw [List.forall₂_map_right_iff, List.forall₂_same]
  intro r _
  by_cases hid : r.id = id
  · simp [hid]
  · simp [hid]

/-- C15 on the store with one engine and one car, the car renamed. -/
theorem UpdateCar_frame_witness :
    (CarStore.UpdateCar (Driver.quiet ⟨11⟩ 9 1) oneCarLot ⟨10⟩
        { sampleRequest with Name := "Accord", Engine := ⟨⟨5⟩, 1, 1, 1⟩ }).2.db =
      ⟨[sampleEngine], [⟨⟨10⟩, "Accord", "2020", "Honda", "Petrol", ⟨1⟩, 20000, 7, 9⟩]⟩ ∧
    (CarStore.UpdateCar (Driver.quiet ⟨11⟩ 9 1) oneCarLot ⟨10⟩
        { sampleRequest with Name := "Accord", Engine := ⟨⟨5⟩, 1, 1, 1⟩ }).2.db.engine =
      oneCarLot.db.engine :=
  have w := UpdateCar_frame (Driver.quiet ⟨11⟩ 9 1) oneCarLot ⟨10⟩
    { sampleRequest with Name := "Accord", Engine := ⟨⟨5⟩, 1, 1, 1⟩ }
    ⟨⟨10⟩, "Accord", "2020", "Honda", "Petrol", Engine.zero, 20000, 0, 9⟩ (by decide) rfl
  ⟨by decide, w.1⟩

/-! ## The metrics middleware -/

/-- Obtaining a child changes the count of no label values. -/
theorem value_WithLabelValues (v : CounterVec) (labels k : List String) :
    (v.WithLabelValues labels).value k = v.value k := by
  unfold CounterVec.WithLabelValues CounterVec.value
  by_cases h : k = labels
  · simp [h]
  · simp [h]

/-- Obtaining a child and incrementing it adds one to its count. -/
theorem value_Inc (v : CounterVec) (labels : List String) :
    ((v.WithLabelValues labels).Inc labels).value labels = v.value labels + 1 := by
  unfold CounterVec.WithLabelValues CounterVec.Inc CounterVec.value
  simp

/-- C16, evidence: after the middleware has wrapped N requests to one path and
method, each answered with `WriteHeader(200)`, the request counter of the
path and method has grown by N, but the status counter has grown by nothing,
for any label values: its child is obtained and never incremented. Three
requests on fresh metrics leave the status count at zero. -/
theorem status_counter_never_counts (statusText : Nat → String) (m : Metrics)
    (path method : String) (durations : List Rat) (labels : List String) :
    (serveAll statusText path method m durations).requestCounter.value [path, method] =
      m.requestCounter.value [path, method] + durations.length ∧
    (serveAll statusText path method m durations).statusCounter.value labels =
      m.statusCounter.value labels ∧
    (serveAll statusText path method noMetrics [1, 1, 1]).requestCounter.value
      [path, method] = 3 ∧
    (serveAll statusText path method noMetrics [1, 1, 1]).statusCounter.value
      [path, method, statusText 200] = 0 := by
  have key : ∀ (ds : List Rat) (m0 : Metrics),
      (serveAll statusText path method m0 ds).requestCounter.value [path, method] =
        m0.requestCounter.value [path, method] + ds.length ∧
      ∀ k, (serveAll statusText path method m0 ds).statusCounter.value k =
        m0.statusCounter.value k := by
    intro ds
    induction ds with
    | nil => intro m0; simp [serveAll]
    | cons x xs ih =>
      intro m0
      obtain ⟨h1, h2⟩ := ih (MetricMiddleware statusText m0 path method [200] x)
      simp only [serveAll, List.length_cons]
      refine ⟨?_, ?_⟩
      · rw [h1]
        simp only [MetricMiddleware, value_Inc]
        omega
      · intro k
        rw [h2 k]
        simp only [MetricMiddleware, value_WithLabelValues]
  refine ⟨(key durations m).1, (key durations m).2 labels, ?_, ?_⟩
  · rw [(key [1, 1, 1] noMetrics).1]; rfl
  · rw [(key [1, 1, 1] noMetrics).2]; rfl

/-! ## Commit failures, the created car and the created engine -/

/-- C18, evidence: when every statement succeeds and the commit fails, each of
the five mutating operations still returns a nil error, and the rows are as
before the call. -/
theorem commit_failure_not_returned :
    (CarStore.UpdateCar { Driver.quiet ⟨10⟩ 9 1 with commit := some "commit failed" }
        oneCarLot ⟨10⟩ sampleRequest =
      (Outcome.returned
          ⟨⟨10⟩, "Civic", "2020", "Honda", "Petrol", Engine.zero, 20000, 0, 9⟩ none,
        ⟨oneCarLot.db, [TxCall.begin, TxCall.commit]⟩)) ∧
    (CarStore.DeleteCar { Driver.quiet ⟨10⟩ 9 1 with commit := some "commit failed" }
        oneCarLot sampleCarID =
      (Outcome.returned
          ⟨⟨10⟩, "Civic", "2020", "Honda", "Petrol", Engine.zero, 20000, 7, 7⟩ none,
        ⟨oneCarLot.db, [TxCall.begin, TxCall.commit]⟩)) ∧
    (EngineStore.CreateEngine { Driver.quiet ⟨10⟩ 9 1 with commit := some "commit failed" }
        emptyLot sampleEngineRequest =
      (Outcome.returned ⟨UUID.Nil, 1600, 4, 550⟩ none,
        ⟨emptyLot.db, [TxCall.begin, TxCall.commit]⟩)) ∧
    (EngineStore.EngineUpdate { Driver.quiet ⟨10⟩ 9 1 with commit := some "commit failed" }
        emptyLot ⟨1⟩ sampleEngineRequest =
      (Outcome.returned ⟨⟨1⟩, 1600, 4, 550⟩ none,
        ⟨emptyLot.db, [TxCall.begin, TxCall.commit]⟩)) ∧
    (EngineStore.EngineDelete { Driver.quiet ⟨10⟩ 9 1 with commit := some "commit failed" }
        emptyLot sampleEngineID =
      (Outcome.returned sampleEngine none,
        ⟨emptyLot.db, [TxCall.begin, TxCall.commit]⟩)) := by
  decide

/-- C20, evidence: a successful `CreateEngine` inserts one row under the fresh
identifier with the fields of the request, but the engine it returns carries
the nil UUID, not the identifier of the inserted row. -/
theorem CreateEngine_returns_nil_id :
    EngineStore.CreateEngine (Driver.quiet ⟨10⟩ 9 1) emptyLot sampleEngineRequest =
      (Outcome.returned ⟨UUID.Nil, 1600, 4, 550⟩ none,
        ⟨⟨[sampleEngine, ⟨⟨10⟩, 1600, 4, 550⟩], []⟩, [TxCall.begin, TxCall.commit]⟩) ∧
    (⟨10⟩ : UUID) ≠ UUID.Nil := by
  decide

/-- The decimal rendering of a 64-bit integer has at most twenty characters. -/
theorem Itoa_length (n : Int) (h0 : -(2 : Int) ^ 63 ≤ n) (h1 : n < (2 : Int) ^ 63) :
    (Itoa n).length ≤ 20 := by
  cases n with
  | ofNat k =>
    have hk : k < 10 ^ 19 := by
      have : (k : Int) < 2 ^ 63 := h1
      omega
    have := Nat.repr_length k 19 (by decide) hk
    show (Nat.repr k).length ≤ 20
    omega
  | negSucc m =>
    have hm : m + 1 < 10 ^ 19 := by
      have h2 : -(2 : Int) ^ 63 ≤ -((m : Int) + 1) := by
        rw [← Int.negSucc_eq]; exact h0
      omega
    have := Nat.repr_length (m + 1) 19 (by decide) hm
    show ("-" ++ Nat.repr (m + 1)).length ≤ 20
    rw [String.length_append]
    have h1 : ("-" : String).length = 1 := by decide
    omega

/-- A text of ASCII characters has as many bytes as characters. -/
theorem utf8Bytes_ascii (l : List Char) (h : ∀ c ∈ l, c.toNat < 128) :
    (utf8Bytes l).length = l.length := by
  induction l with
  | nil => rfl
  | cons c cs ih =>
    have hc : c.toNat < 128 := h c (List.mem_cons_self c cs)
    have hcs : ∀ x ∈ cs, x.toNat < 128 := fun x hx => h x (List.mem_cons_of_mem c hx)
    simp only [utf8Bytes, charBytes, hc, if_true, List.length_append, List.length_cons,
      List.length_nil, ih hcs]
    omega

/-- The digits written by `Nat.toDigitsCore` are ASCII, when those already
written are. -/
theorem toDigitsCore_ascii (fuel : Nat) : ∀ (n : Nat) (ds : List Char),
    (∀ c ∈ ds, c.toNat < 128) → ∀ c ∈ Nat.toDigitsCore 10 fuel n ds, c.toNat < 128 := by
  induction fuel with
  | zero => intro n ds h; simpa [Nat.toDigitsCore] using h
  | succ f ih =>
    intro n ds h
    have hd : (Nat.digitChar (n % 10)).toNat < 128 := by
      have hlt : n % 10 < 10 := Nat.mod_lt _ (by decide)
      interval_cases (n % 10) <;> decide
    have hcons : ∀ c ∈ Nat.digitChar (n % 10) :: ds, c.toNat < 128 := by
      intro c hc
      rcases List.mem_cons.mp hc with h1 | h1
      · rw [h1]; exact hd
      · exact h c h1
    simp only [Nat.toDigitsCore]
    by_cases h0 : n / 10 = 0
    · simp only [h0, if_true]; exact hcons
    · simp only [h0, if_false]; exact ih (n / 10) _ hcons

/-- The decimal rendering of an integer is ASCII: it has as many bytes as
characters. -/
theorem Itoa_bytes (n : Int) : (utf8Bytes (Itoa n).toList).length = (Itoa n).length := by
  have hrepr : ∀ k : Nat, ∀ c ∈ (Nat.repr k).toList, c.toNat < 128 := by
    intro k
    exact toDigitsCore_ascii (k + 1) k [] (by simp)
  have hlen : ∀ s : String, s.length = s.toList.length := fun _ => rfl
  rw [hlen]
  apply utf8Bytes_ascii
  cases n with
  | ofNat k => exact hrepr k
  | negSucc m =>
    have hl : (Itoa (Int.negSucc m)).toList = '-' :: (Nat.repr (m + 1)).toList := by
      show ("-" ++ Nat.repr (m + 1)).toList = _
      simp [String.toList, String.data_append]
    rw [hl]
    intro c hc
    rcases List.mem_cons.mp hc with h1 | h1
    · rw [h1]; decide
    · exact hrepr (m + 1) c h1

/-- A text of at most twenty bytes is no UUID text. -/
theorem uuidParse_short (str : String) (h : (utf8Bytes str.toList).length ≤ 20) :
    uuidParse str = none := by
  unfold uuidParse
  simp only []
  rw [if_neg (by omega), if_neg (by omega), if_neg (by omega), if_neg (by omega)]

/-- The outcome of `CreateCar` is never a car with a nil error, when the
answer of `LastInsertId` renders to no UUID text. -/
theorem CreateCar_outcomes (d : Driver) (st : Store) (carReq : CarRequest)
    (hparse : ∀ n, d.lastInsertId = Except.ok n → uuidParse (Itoa n) = none) :
    (CarStore.CreateCar d st carReq).1 = Outcome.panicked ∨
    ∃ err, (CarStore.CreateCar d st carReq).1 = Outcome.returned Car.zero (some err) := by
  unfold CarStore.CreateCar BeginTx
  cases d.lookup with
  | some text => right; exact ⟨_, rfl⟩
  | none =>
    cases st.db.engine.find? (fun e => e.EngineID == carReq.Engine.EngineID) with
    | none => right; exact ⟨_, rfl⟩
    | some e =>
      cases d.beginTx with
      | some text => right; exact ⟨_, rfl⟩
      | none =>
        cases d.exec with
        | panics => left; rfl
        | fails text => right; exact ⟨_, rfl⟩
        | ok =>
          cases hli : d.lastInsertId with
          | error text => right; exact ⟨_, rfl⟩
          | ok n =>
            left
            simp only [hparse n hli]

/-- C19: for a `LastInsertId` that answers within the range of int64, the
decimal rendering of the answer has at most twenty characters and is no UUID
text; `CreateCar` therefore never returns a car with a nil error: it panics
or returns the zero car with an error; and when the lookup, `BeginTx`, the
insert and `LastInsertId` all succeed it panics, the deferred closure calls
`Commit`, and a commit that succeeds stores the inserted row. -/
theorem CreateCar_never_succeeds (d : Driver) (st : Store) (carReq : CarRequest)
    (hint : ∀ n, d.lastInsertId = Except.ok n → -(2 : Int) ^ 63 ≤ n ∧ n < (2 : Int) ^ 63) :
    (∀ n : Int, -(2 : Int) ^ 63 ≤ n → n < (2 : Int) ^ 63 →
      (Itoa n).length ≤ 20 ∧ uuidParse (Itoa n) = none) ∧
    (∀ car, (CarStore.CreateCar d st carReq).1 ≠ Outcome.returned car none) ∧
    ((CarStore.CreateCar d st carReq).1 = Outcome.panicked ∨
      ∃ err, (CarStore.CreateCar d st carReq).1 = Outcome.returned Car.zero (some err)) ∧
    (∀ e n, d.lookup = none →
      st.db.engine.find? (fun e => e.EngineID == carReq.Engine.EngineID) = some e →
      d.beginTx = none → d.exec = Stmt.ok → d.lastInsertId = Except.ok n →
      (CarStore.CreateCar d st carReq).1 = Outcome.panicked ∧
      (CarStore.CreateCar d st carReq).2.calls = st.calls ++ [TxCall.begin, TxCall.commit] ∧
      (d.commit = none →
        (CarStore.CreateCar d st carReq).2.db.cars =
          st.db.cars ++ [CarStore.newRow d carReq])) := by
  have hshort : ∀ n : Int, -(2 : Int) ^ 63 ≤ n → n < (2 : Int) ^ 63 →
      (Itoa n).length ≤ 20 ∧ uuidParse (Itoa n) = none :=
    fun n h0 h1 => ⟨Itoa_length n h0 h1,
      uuidParse_short _ (by rw [Itoa_bytes]; exact Itoa_length n h0 h1)⟩
  have hparse : ∀ n, d.lastInsertId = Except.ok n → uuidParse (Itoa n) = none :=
    fun n hn => (hshort n (hint n hn).1 (hint n hn).2).2
  have hout := CreateCar_outcomes d st carReq hparse
  refine ⟨hshort, ?_, hout, ?_⟩
  · intro car hcar
    rcases hout with hp | ⟨err, he⟩
    · rw [hp] at hcar; cases hcar
    · rw [he] at hcar; cases hcar
  · intro e n hl hf hb he hli
    have hp := hparse n hli
    have hrun : CarStore.CreateCar d st carReq =
        (Outcome.panicked,
          deferred d none
            ⟨{ st.db with cars := st.db.cars ++ [CarStore.newRow d carReq] }, false⟩
            { st with calls := st.calls ++ [TxCall.begin] }) := by
      unfold CarStore.CreateCar BeginTx
      simp only [hl, hf, hb, he, hli, hp]
    rw [hrun]
    refine ⟨rfl, ?_, ?_⟩
    · cases hc : d.commit <;> simp [deferred, Tx.Commit, hc]
    · intro hc
      simp [deferred, Tx.Commit, hc]

/-- C19 for a driver whose `LastInsertId` answers 1, on the store with one
engine and no car. -/
theorem CreateCar_never_succeeds_witness :
    (∀ n, (Driver.quiet ⟨10⟩ 7 1).lastInsertId = Except.ok n →
      -(2 : Int) ^ 63 ≤ n ∧ n < (2 : Int) ^ 63) ∧
    (∀ car, (CarStore.CreateCar (Driver.quiet ⟨10⟩ 7 1) emptyLot sampleRequest).1 ≠
      Outcome.returned car none) ∧
    ((CarStore.CreateCar (Driver.quiet ⟨10⟩ 7 1) emptyLot sampleRequest).1 = Outcome.panicked ∨
      ∃ err, (CarStore.CreateCar (Driver.quiet ⟨10⟩ 7 1) emptyLot sampleRequest).1 =
        Outcome.returned Car.zero (some err)) :=
  have hyp : ∀ n, (Driver.quiet ⟨10⟩ 7 1).lastInsertId = Except.ok n →
      -(2 : Int) ^ 63 ≤ n ∧ n < (2 : Int) ^ 63 := by
    intro n hn
    have h1 : n = 1 := by
      simp only [Driver.quiet] at hn
      exact (Except.ok.inj hn).symm
    subst h1
    decide
  have w := CreateCar_never_succeeds (Driver.quiet ⟨10⟩ 7 1) emptyLot sampleRequest hyp
  ⟨hyp, w.2.1, w.2.2.1⟩

end Carzone
